import Mathlib

/-!
# Verification of the pipeline DSL interpreter (`pipeline_dsl`)

A shallow embedding of the core of the repository:

* `file_reader.py`  — cleaned-line production (only the parts the claims need),
* `ppl_parser.py`   — the two-pass line parser (`parse_lines` and every
  individual command parser it dispatches to),
* `ast_nodes.py`    — the AST node classes with their `execute` methods,
* `executor.py`     — `PipelineContext`, `run_pipeline`, `_run_chunked_pipeline`.

Modelling conventions
---------------------

* Python strings are Lean `String`s; Python `float` values produced by
  `float(...)` on decimal literals are modelled as exact rationals `ℚ`
  (none of the verified properties depends on binary rounding).
* The columnar engine (polars) and pandas are external collaborators of the
  repository (spec §1 "Out of scope").  Their table operations are modelled
  by small concrete implementations on a `Table` (list of rows); lazy polars
  expressions are evaluated eagerly.  Random sampling and the `eval`-based
  arithmetic of `add` are modelled as abstract functions in the environment
  `Env`, since they depend on host state.
* Python attribute semantics matter here: `PipelineContext` (executor.py)
  is a dataclass with fields `df`, `grouped`, `variables`, `sandbox_dir`,
  while the node classes dynamically create `lf`, `group_by_cols` and
  `streaming` on first assignment.  A dynamic attribute is modelled as an
  `Option` whose `none` means *attribute missing*: reading it then raises
  `AttributeError`, exactly as in Python.  (No code path ever assigns the
  Python value `None` to `lf`, but the inner `Option` keeps the unreachable
  "no data loaded" branches of the source faithfully representable.)
* Exceptions are modelled by `PyError` (class + message); `str(exc)` is
  `strExc`, which reproduces CPython's quoting of `KeyError` messages.
-/

/-! ## Python string helpers -/

/-- Python `str.isspace` characters relevant to `str.strip()` (ASCII part). -/
def pyIsSpace (c : Char) : Bool :=
  c = ' ' || c = '\t' || c = '\n' || c = '\x0d' || c = '\x0b' || c = '\x0c'

/-- Python `str.strip()` (no argument): trim whitespace from both ends. -/
def pyStrip (s : String) : String :=
  ⟨(s.data.dropWhile pyIsSpace).reverse.dropWhile pyIsSpace |>.reverse⟩

/-- Python `str.strip(chars)`: trim any run of the given characters from both
ends.  Used by the source as `.strip("\"'")`. -/
def pyStripChars (chars : List Char) (s : String) : String :=
  ⟨(s.data.dropWhile (chars.contains ·)).reverse.dropWhile (chars.contains ·) |>.reverse⟩

/-- The character set of Python's `.strip("\"'")` calls. -/
def quoteChars : List Char := ['"', '\'']

/-- Python `str.lower()` (ASCII). -/
def pyLower (s : String) : String := ⟨s.data.map Char.toLower⟩

/-- Python `s.startswith(pre)` (character-list based so that proofs can
evaluate it). -/
def pyStartswith (s pre : String) : Bool := pre.data.isPrefixOf s.data

/-- Python `s.endswith(suf)`. -/
def pyEndswith (s suf : String) : Bool := suf.data.isSuffixOf s.data

/-- Python `line.partition(" ")` restricted to the first two components:
split at the first space character; when there is no space the second
component is empty. -/
def partitionSpace (s : String) : String × String :=
  match s.data.splitOn ' ' with
  | [] => (s, "")
  | [_] => (s, "")
  | first :: rest => (⟨first⟩, ⟨List.intercalate [' '] rest⟩)

/-- Python `str.split()` with no argument: tokens separated by whitespace
runs, no empty tokens. -/
def pySplitWs (s : String) : List String :=
  ((s.data.splitOnP pyIsSpace).filter (· ≠ [])).map (⟨·⟩)

/-- Python slicing `s[n:]`. -/
def pyDropFirst (n : Nat) (s : String) : String := ⟨s.data.drop n⟩

/-- Python `repr` of a short string (as used by `str(KeyError(...))`):
single quotes, switching to double quotes when the text contains a single
quote but no double quote.  (Escape sequences are not needed by any message
in the repository.) -/
def pyRepr (s : String) : String :=
  if s.data.contains '\'' && !(s.data.contains '"') then "\"" ++ s ++ "\""
  else "'" ++ s ++ "'"

/-- Python `repr` of a list of strings, e.g. `['name', 'age']`. -/
def pyListRepr (xs : List String) : String :=
  "[" ++ String.intercalate ", " (xs.map pyRepr) ++ "]"

/-! ## Numbers: Python `float()` / `int()` on the literals the DSL uses -/

/-- Maximal run of decimal digits. -/
def takeDigits : List Char → (List Char × List Char) :=
  fun cs => (cs.takeWhile Char.isDigit, cs.dropWhile Char.isDigit)

/-- Digits to a natural number. -/
def digitsToNat (ds : List Char) : Nat :=
  ds.foldl (fun a c => a * 10 + (c.toNat - '0'.toNat)) 0

/-- Python `float(s)` on plain decimal literals (optional sign, integer part,
fractional part, optional exponent).  Returns `none` when `float` would raise
`ValueError`.  Exotic forms (`inf`, `nan`, underscores) are not produced by
the DSL and are treated as errors. -/
def pyFloat (s : String) : Option ℚ :=
  let cs := (pyStrip s).data
  let (sgn, cs) := match cs with
    | '-' :: t => ((-1 : Int), t)
    | '+' :: t => ((1 : Int), t)
    | t => ((1 : Int), t)
  let (ip, cs) := takeDigits cs
  let (fp, cs) := match cs with
    | '.' :: t => let (d, r) := takeDigits t; (d, r)
    | t => ([], t)
  if ip = [] ∧ fp = [] then none else
  -- the exact value  sign * (int.frac) , written with `mkRat` so that the
  -- kernel can evaluate it
  let mant : ℚ := mkRat (sgn * (digitsToNat (ip ++ fp) : Int)) ((10 : Nat) ^ fp.length)
  match cs with
  | [] => some mant
  | e :: t =>
    if e = 'e' ∨ e = 'E' then
      let (epos, t) := match t with
        | '-' :: r => (false, r)
        | '+' :: r => (true, r)
        | r => (true, r)
      let (ed, t) := takeDigits t
      if ed = [] ∨ t ≠ [] then none
      else
        let ex := digitsToNat ed
        some (if epos then mant * mkRat ((10 : Nat) ^ ex : Int) 1
              else mant * mkRat 1 ((10 : Nat) ^ ex))
    else none

/-- Python `int(s)`: optional sign and decimal digits (after stripping outer
whitespace); `none` when `int` would raise `ValueError`. -/
def pyInt (s : String) : Option Int :=
  let cs := (pyStrip s).data
  let (sign, cs) := match cs with
    | '-' :: t => ((-1 : Int), t)
    | '+' :: t => ((1 : Int), t)
    | t => ((1 : Int), t)
  let (ds, rest) := takeDigits cs
  if ds = [] ∨ rest ≠ [] then none else some (sign * (digitsToNat ds : Int))

/-! ## Errors -/

/-- The Python exception classes that appear in the interpreter. -/
inductive ExcClass where
  | attributeError
  | assertionError
  | fileNotFoundError
  | keyError
  | runtimeError
  | valueError
  | permissionError
  | syntaxError
  deriving DecidableEq, Repr

/-- A raised Python exception: class plus message argument. -/
structure PyError where
  cls : ExcClass
  msg : String
  deriving DecidableEq, Repr

/-- Python `str(exc)`: the message, except that `KeyError` stringifies the
`repr` of its argument. -/
def strExc (e : PyError) : String :=
  match e.cls with
  | .keyError => pyRepr e.msg
  | _ => e.msg

/-- The classes named by `except (AssertionError, FileNotFoundError,
KeyError, RuntimeError, ValueError)` in `executor.py`.  Note that
`PermissionError` is *not* among them. -/
def recognizedClass (c : ExcClass) : Bool :=
  match c with
  | .assertionError | .fileNotFoundError | .keyError | .runtimeError | .valueError => true
  | _ => false

/-- `raise type(exc)(f"[{node_name}] {exc}")` from the executor loops. -/
def wrapError (nodeName : String) (e : PyError) : PyError :=
  ⟨e.cls, "[" ++ nodeName ++ "] " ++ strExc e⟩

/-- Reading a dynamically-created attribute that was never assigned. -/
def attrError (attr : String) : PyError :=
  ⟨.attributeError, "'PipelineContext' object has no attribute '" ++ attr ++ "'"⟩

/-! ## Values and tables

The working dataset.  Polars is column-typed; here each cell carries its own
tag, which is faithful for the operations the claims exercise (the engine is
an out-of-scope collaborator, spec §1). -/

/-- A cell value: exact rational for numeric types, string, or null. -/
inductive Val where
  | num (q : ℚ)
  | str (s : String)
  | null
  deriving DecidableEq, Repr

/-- A table: ordered column names and rows of cells (row-major). -/
structure Table where
  cols : List String
  rows : List (List Val)
  deriving DecidableEq, Repr

/-- Index of a column name. -/
def Table.colIdx (t : Table) (c : String) : Option Nat :=
  t.cols.findIdx? (· = c)

/-- Cell of a row at a column index (missing cells read as null). -/
def cellAt (row : List Val) (i : Nat) : Val := row.getD i .null

/-- Render a value the way the engine prints it in a cell (approximate;
stdout formatting is out of scope). -/
def Val.render : Val → String
  | .num q => if q.den = 1 then toString q.num else toString q
  | .str s => s
  | .null => "null"

/-- Cast a value to string, as `pl.col(c).cast(pl.String)` does before the
string operations `trim` / `uppercase` / `lowercase`. -/
def Val.toStr : Val → Val
  | .null => .null
  | .str s => .str s
  | .num q => .str (Val.num q).render

/-- The comparison behind `_apply_polars_filter`: compare a cell with the
coerced right-hand side.  `none` models a null comparison result (null
operand or incompatible types), which a polars `filter` drops. -/
def valCmp (v : Val) (op : String) (rhs : Val) : Option Bool :=
  match v, rhs with
  | .num a, .num b =>
    some (match op with
      | ">" => a > b | "<" => a < b | ">=" => a ≥ b | "<=" => a ≤ b
      | "==" => a = b | _ => a ≠ b)
  | .str a, .str b =>
    some (match op with
      | ">" => b < a | "<" => a < b | ">=" => ¬ a < b | "<=" => ¬ b < a
      | "==" => a = b | _ => a ≠ b)
  | _, _ => none

/-- Keep the rows on which the predicate is definitely true (polars
`filter`). -/
def Table.filterRows (t : Table) (p : List Val → Option Bool) : Table :=
  ⟨t.cols, t.rows.filter (fun r => p r = some true)⟩

/-- Polars `select(cols)`: project to the named columns, in the given
order.  Callers have already checked that the columns exist. -/
def Table.selectCols (t : Table) (cs : List String) : Table :=
  ⟨cs, t.rows.map (fun r => cs.map (fun c => cellAt r ((t.colIdx c).getD 0)))⟩

/-- Polars `drop(cols)`. -/
def Table.dropCols (t : Table) (cs : List String) : Table :=
  Table.selectCols t (t.cols.filter (fun c => ¬ cs.contains c))

/-- Polars `limit(n)`. -/
def Table.limitRows (t : Table) (n : Nat) : Table := ⟨t.cols, t.rows.take n⟩

/-- Polars `unique()` modelled as keep-first-occurrence de-duplication of
full rows. -/
def Table.distinctRows (t : Table) : Table :=
  ⟨t.cols, (t.rows.foldl (fun acc r => if acc.contains r then acc else acc ++ [r]) [])⟩

/-- Rename one column (callers checked existence). -/
def Table.renameCol (t : Table) (old new : String) : Table :=
  ⟨t.cols.map (fun c => if c = old then new else c), t.rows⟩

/-- A total comparison on cells used by `sort` (nulls first, numbers before
strings; ordering details are engine-internal and out of scope). -/
def valLe : Val → Val → Bool
  | .null, _ => true
  | _, .null => false
  | .num a, .num b => a ≤ b
  | .num _, .str _ => true
  | .str _, .num _ => false
  | .str a, .str b => ¬ b < a

/-- Row comparison for `sort(cols, descending=...)`: lexicographic over the
key columns, flipping each key with its descending flag. -/
def rowLe (idxs : List (Nat × Bool)) (r1 r2 : List Val) : Bool :=
  match idxs with
  | [] => true
  | (i, desc) :: rest =>
    let a := cellAt r1 i
    let b := cellAt r2 i
    if a = b then rowLe rest r1 r2
    else if desc then valLe b a else valLe a b

/-- Stable insertion sort. -/
def insertSorted (le : α → α → Bool) (x : α) : List α → List α
  | [] => [x]
  | y :: ys => if le y x then y :: insertSorted le x ys else x :: y :: ys

/-- Stable sort of a list. -/
def stableSort (le : α → α → Bool) : List α → List α
  | [] => []
  | x :: xs => insertSorted le x (stableSort le xs)

/-- Polars `sort(cols, descending=flags)`. -/
def Table.sortRows (t : Table) (cs : List String) (descending : List Bool) : Table :=
  let idxs := (cs.zip (descending ++ List.replicate cs.length false)).map
    (fun (c, d) => ((t.colIdx c).getD 0, d))
  ⟨t.cols, stableSort (rowLe idxs) t.rows⟩

/-- `with_columns(expr.alias(name))`: replace the column if it exists,
otherwise append it; the expression is a per-row function. -/
def Table.withColumn (t : Table) (name : String) (f : List Val → Val) : Table :=
  match t.colIdx name with
  | some i => ⟨t.cols, t.rows.map (fun r => r.set i (f r))⟩
  | none => ⟨t.cols ++ [name], t.rows.map (fun r => r ++ [f r])⟩

/-- Diagonal concatenation (`pl.concat(..., how="diagonal")`): union of
columns in first-seen order, null for missing cells. -/
def concatDiagonal (ts : List Table) : Table :=
  let cols := ts.foldl (fun acc t => acc ++ t.cols.filter (fun c => ¬ acc.contains c)) []
  ⟨cols, ts.flatMap (fun t => t.rows.map (fun r =>
      cols.map (fun c => match t.colIdx c with
        | some i => cellAt r i
        | none => .null)))⟩

/-- Row of a table as an association list column-name ↦ cell. -/
def rowAssoc (cols : List String) (r : List Val) : List (String × Val) :=
  cols.zip r


/-! ## Execution state and environment -/

/-- `executor.PipelineContext`.  The dataclass declares `df`, `grouped`,
`variables`, `sandbox_dir`.  The attributes `lf`, `group_by_cols` and
`streaming` are *created dynamically* by the node code in `ast_nodes.py`;
their outer `Option` is `none` while the attribute does not exist (reading
it raises `AttributeError`). -/
structure Ctx where
  df : Option Table := none
  grouped : Option Unit := none
  /-- Source field name: `variables` (a Lean keyword, hence `vars` here). -/
  vars : List (String × String) := []
  sandbox_dir : Option String := none
  lf : Option (Option Table) := none
  group_by_cols : Option (Option (List String)) := none
  streaming : Option Bool := none
  deriving Repr

/-- Fresh `PipelineContext()`. -/
def Ctx.initial : Ctx := {}

/-- Python dict lookup on the variables mapping. -/
def dictGet (d : List (String × String)) (k : String) : Option String :=
  (d.find? (fun p => p.1 = k)).map Prod.snd

/-- Python dict assignment `d[k] = v`. -/
def dictSet (d : List (String × String)) (k v : String) : List (String × String) :=
  if (d.find? (fun p => p.1 = k)).isSome
  then d.map (fun p => if p.1 = k then (k, v) else p)
  else d ++ [(k, v)]

/-- The host-side collaborators the interpreter calls into (file system,
canonical paths, OS environment, glob, the engine's random sampler, and the
`eval`-based arithmetic of `add`).  All are out-of-scope externals (spec §1,
§6), so they are parameters of the embedding. -/
structure Env where
  /-- Tabular files on disk, by path (CSV / Parquet / NDJSON readers all
  produce the stored table). -/
  fs : String → Option Table
  /-- Cleaned line lists of `.ppl` files (the output of `read_ppl_file`). -/
  ppl : String → Option (List String)
  /-- `os.path.realpath(os.path.abspath(·))`. -/
  canon : String → String
  /-- `os.environ.get`. -/
  osEnv : String → Option String
  /-- `glob.glob`. -/
  glob : String → List String
  /-- Engine random sampler: `df.sample(n=·)`. -/
  sampleN : Nat → List (List Val) → List (List Val)
  /-- Engine random sampler: `df.sample(fraction=·)`. -/
  sampleFrac : ℚ → List (List Val) → List (List Val)
  /-- `_str_to_polars_expr` + `with_columns`: evaluate an `add` expression
  against a row; `.error s` models the `eval` failure text. -/
  addExpr : String → List String → Except String (List (String × Val) → Val)

/-- `os.path.exists`, over both file maps. -/
def Env.pathExists (env : Env) (p : String) : Bool :=
  (env.fs p).isSome || (env.ppl p).isSome

/-! ## Helper utilities from `ast_nodes.py` -/

/-- `_resolve_value`: resolve a `$varname` token from `context.variables`. -/
def resolve_value (value : String) (ctx : Ctx) : Except PyError String :=
  let stripped := pyStrip value
  if pyStartswith stripped "$" then
    let varName := pyDropFirst 1 stripped
    match dictGet ctx.vars varName with
    | none => .error ⟨.keyError,
        "variable '$" ++ varName ++ "' is not defined. Use 'set " ++ varName ++
        " = <value>' first."⟩
    | some v => .ok v
  else .ok stripped

/-- Python `\w` (word character) on the ASCII range used by the DSL. -/
def isWordChar (c : Char) : Bool := c.isAlphanum || c = '_'

/-- `dropWhile` never lengthens a list (termination helper). -/
theorem dropWhile_length_le (p : α → Bool) (l : List α) :
    (l.dropWhile p).length ≤ l.length := by
  induction l with
  | nil => simp [List.dropWhile]
  | cons a t ih =>
    simp only [List.dropWhile]
    split
    · exact Nat.le_succ_of_le ih
    · simp

/-- Scanner for `re.sub(r'\$(\w+)', repl, text)`: replace every maximal
`$name` token; an unknown name raises `KeyError`.  The first argument is
structural-recursion fuel; each step consumes at least one character, so
fuel equal to the list length always suffices. -/
def substCharsGo (dict : List (String × String)) : Nat → List Char → Except PyError (List Char)
  | _, [] => .ok []
  | 0, _ :: _ => .ok []
  | fuel + 1, '$' :: rest =>
    let name := rest.takeWhile isWordChar
    if name = [] then
      (substCharsGo dict fuel rest).map (fun t => '$' :: t)
    else
      match dictGet dict ⟨name⟩ with
      | none => .error ⟨.keyError, "variable '$" ++ (⟨name⟩ : String) ++ "' is not defined."⟩
      | some v => (substCharsGo dict fuel (rest.dropWhile isWordChar)).map
          (fun t => v.data ++ t)
  | fuel + 1, c :: rest => (substCharsGo dict fuel rest).map (fun t => c :: t)

/-- `_substitute_vars`: replace every `$varname` token in a string. -/
def substitute_vars (text : String) (ctx : Ctx) : Except PyError String :=
  (substCharsGo ctx.vars text.data.length text.data).map (⟨·⟩)

/-- `_coerce_rhs`: strip outer quote characters, try `float`, else keep the
cleaned string. -/
def coerce_rhs (raw : String) : Val :=
  let cleaned := pyStripChars quoteChars raw
  match pyFloat cleaned with
  | some q => .num q
  | none => .str cleaned

/-- `os.sep` on the POSIX hosts the repository targets. -/
def osSep : String := "/"

/-- `_check_path_sandbox`: `none` when the path is allowed, otherwise the
raised `PermissionError`.  `canon` is the host's
`os.path.realpath(os.path.abspath(·))`. -/
def check_path_sandbox (canon : String → String) (path : String) (ctx : Ctx) :
    Option PyError :=
  match ctx.sandbox_dir with
  | none => none
  | some sandbox =>
    let absPath := canon path
    let absSandbox := canon sandbox
    if absPath = absSandbox || pyStartswith absPath (absSandbox ++ osSep) then none
    else some ⟨.permissionError,
      "Access denied: '" ++ path ++ "' is outside the sandbox '" ++ sandbox ++
      "'. Use 'set sandbox = <dir>' to change the allowed directory."⟩

/-- The key order of `_OPERATORS` (also `_FILTER_OPERATORS` in the parser). -/
def operatorList : List String := [">=", "<=", "!=", "==", ">", "<"]

/-- The operator validation of `_apply_polars_filter` /
`_apply_polars_filter_expr`: unsupported operators raise `ValueError`
when the expression is built. -/
def applyPolarsFilterOk (op : String) : Except PyError Unit :=
  if operatorList.contains op then .ok ()
  else .error ⟨.valueError,
    "unsupported operator '" ++ op ++ "'. Supported: " ++ pyListRepr operatorList⟩

/-- `_make_val_expr`: a branch value of `add … = if …` resolves to a column
reference, a numeric literal, or a string literal.  Returns the per-row
evaluation function. -/
def make_val_expr (v : String) (ctx : Ctx) (t : Table) :
    Except PyError (List Val → Val) := do
  let resolved0 ← resolve_value v ctx
  let resolved := pyStripChars quoteChars resolved0
  match t.colIdx resolved with
  | some i => .ok (fun r => cellAt r i)
  | none =>
    match pyFloat resolved with
    | some q => .ok (fun _ => .num q)
    | none => .ok (fun _ => .str resolved)

/-- The keys of `_POLARS_TYPE_MAP`. -/
def polarsTypeNames : List String :=
  ["int", "integer", "float", "double", "str", "string", "text",
   "datetime", "date", "bool", "boolean"]

/-- Non-strict cast of one cell (`cast(..., strict=False)`): failures become
null.  Datetime/date/bool conversions are engine externals, approximated
conservatively (numbers survive, unparseable strings become null). -/
def castVal (typeName : String) (v : Val) : Val :=
  match v with
  | .null => .null
  | .num q =>
    if typeName = "int" ∨ typeName = "integer" then .num ⌊q⌋
    else if typeName = "str" ∨ typeName = "string" ∨ typeName = "text" then (Val.num q).toStr
    else .num q
  | .str s =>
    if typeName = "str" ∨ typeName = "string" ∨ typeName = "text" then .str s
    else match pyFloat s with
      | some q => if typeName = "int" ∨ typeName = "integer" then .num ⌊q⌋ else .num q
      | none => .null

/-! ## Execution results -/

/-- Result of executing a node: the (possibly partially mutated) context,
the lines printed to stdout, and the raised exception if any.  Python
mutates the context in place, so the context survives a raise. -/
structure ExecRes where
  ctx : Ctx
  out : List String
  err : Option PyError
  deriving Repr

/-- Raise without output or mutation. -/
def ExecRes.fail (ctx : Ctx) (e : PyError) : ExecRes := ⟨ctx, [], some e⟩

/-- Read the dynamic attribute `context.lf`. -/
def readLf (ctx : Ctx) : Except PyError (Option Table) :=
  match ctx.lf with
  | none => .error (attrError "lf")
  | some v => .ok v

/-- Read the dynamic attribute `context.group_by_cols`. -/
def readGroupCols (ctx : Ctx) : Except PyError (Option (List String)) :=
  match ctx.group_by_cols with
  | none => .error (attrError "group_by_cols")
  | some v => .ok v

/-- The `if context.lf is None: raise RuntimeError(...)` prologue shared by
the table commands (reading a missing attribute raises `AttributeError`
before the `None` test can succeed). -/
def requireLf (verb : String) (ctx : Ctx) : Except PyError Table := do
  match ← readLf ctx with
  | none => .error ⟨.runtimeError, verb ++ ": no data loaded — use 'source' first"⟩
  | some t => .ok t

/-- `KeyError` for a missing column, shared message shape. -/
def colNotFound (verb c : String) (cols : List String) : PyError :=
  ⟨.keyError, verb ++ ": column '" ++ c ++ "' not found. Available: " ++ pyListRepr cols⟩

/-! ## Per-node `execute` (ast_nodes.py), non-structured commands -/

/-- `SourceNode.execute`. -/
def execSource (env : Env) (file_path : String) (chunk_size : Option Nat) (ctx : Ctx) : ExecRes :=
  match substitute_vars file_path ctx with
  | .error e => .fail ctx e
  | .ok path =>
    match check_path_sandbox env.canon path ctx with
    | some e => .fail ctx e
    | none =>
      if ¬ env.pathExists path then
        .fail ctx ⟨.fileNotFoundError, "Source file not found: '" ++ path ++ "'"⟩
      else
        -- the three extension-dispatched loaders all read the file's table
        match env.fs path with
        | none => .fail ctx ⟨.fileNotFoundError, "Source file not found: '" ++ path ++ "'"⟩
        | some t =>
          ⟨{ctx with lf := some (some t),
                     streaming := if chunk_size.isSome then some true else ctx.streaming,
                     group_by_cols := some none}, [], none⟩

/-- `ForeachNode.execute`. -/
def execForeach (env : Env) (pattern : String) (ctx : Ctx) : ExecRes :=
  match substitute_vars pattern ctx with
  | .error e => .fail ctx e
  | .ok pat =>
    let files := stableSort (fun a b => ¬ b < a) (env.glob pat)
    if files = [] then
      .fail ctx ⟨.fileNotFoundError, "foreach: no files matched pattern '" ++ pat ++ "'"⟩
    else
      match files.findSome? (fun f => check_path_sandbox env.canon f ctx) with
      | some e => .fail ctx e
      | none =>
        let dfs := files.filterMap env.fs
        ⟨{ctx with lf := some (some (concatDiagonal dfs)), group_by_cols := some none},
         [], none⟩

/-- `FilterNode.execute`. -/
def execFilter (ctx : Ctx) (column op value : String) : ExecRes :=
  match (do
    let t ← requireLf "filter" ctx
    if ¬ t.cols.contains column then throw (colNotFound "filter" column t.cols) else
    let raw ← resolve_value value ctx
    let rhs := coerce_rhs raw
    match applyPolarsFilterOk op with
    | .error e => throw ⟨.valueError, "filter: " ++ e.msg⟩
    | .ok _ =>
      let i := (t.colIdx column).getD 0
      pure (t.filterRows (fun r => valCmp (cellAt r i) op rhs)) :
      Except PyError Table) with
  | .error e => .fail ctx e
  | .ok t' => ⟨{ctx with lf := some (some t'), group_by_cols := some none}, [], none⟩

/-- Kleene `&` on nullable booleans (polars boolean algebra). -/
def kAnd : Option Bool → Option Bool → Option Bool
  | some false, _ => some false
  | _, some false => some false
  | some true, some true => some true
  | _, _ => none

/-- Kleene `|` on nullable booleans. -/
def kOr : Option Bool → Option Bool → Option Bool
  | some true, _ => some true
  | _, some true => some true
  | some false, some false => some false
  | _, _ => none

/-- The mask-building loop of `CompoundFilterNode.execute`: left-to-right
combination with `and` / `or` (`i` is the enumeration index, `mask` the
accumulator). -/
def compoundLoop (ctx : Ctx) (t : Table) (logic : List String) :
    List (String × String × String) → Nat → Option (List Val → Option Bool) →
    Except PyError (Option (List Val → Option Bool))
  | [], _, mask => .ok mask
  | (col, op, val) :: rest, i, mask => do
    if ¬ t.cols.contains col then throw (colNotFound "filter" col t.cols) else
    let raw ← resolve_value val ctx
    let rhs := coerce_rhs raw
    let _ ← applyPolarsFilterOk op
    let ci := (t.colIdx col).getD 0
    let condMask : List Val → Option Bool := fun r => valCmp (cellAt r ci) op rhs
    let newMask := match mask with
      | none => condMask
      | some m =>
        -- `lg = self.logic[i - 1]` (the parser guarantees the index exists)
        if logic.getD (i - 1) "" = "and" then fun r => kAnd (m r) (condMask r)
        else fun r => kOr (m r) (condMask r)
    compoundLoop ctx t logic rest (i + 1) (some newMask)

/-- `CompoundFilterNode.execute`. -/
def execCompoundFilter (ctx : Ctx) (conditions : List (String × String × String))
    (logic : List String) : ExecRes :=
  match (do
    let t ← requireLf "filter" ctx
    let mask ← compoundLoop ctx t logic conditions 0 none
    pure (match mask with
      | some m => t.filterRows m
      | none => t) : Except PyError Table) with
  | .error e => .fail ctx e
  | .ok t' => ⟨{ctx with lf := some (some t'), group_by_cols := some none}, [], none⟩

/-- `SelectNode.execute`. -/
def execSelect (ctx : Ctx) (columns : List String) : ExecRes :=
  match (do
    let t ← requireLf "select" ctx
    let missing := columns.filter (fun c => ¬ t.cols.contains c)
    if missing ≠ [] then
      throw ⟨.keyError, "select: unknown column(s) " ++ pyListRepr missing ++
        ". Available: " ++ pyListRepr t.cols⟩ else
    pure (t.selectCols columns) : Except PyError Table) with
  | .error e => .fail ctx e
  | .ok t' => ⟨{ctx with lf := some (some t'), group_by_cols := some none}, [], none⟩

/-- `DropNode.execute`. -/
def execDrop (ctx : Ctx) (columns : List String) : ExecRes :=
  match (do
    let t ← requireLf "drop" ctx
    let missing := columns.filter (fun c => ¬ t.cols.contains c)
    if missing ≠ [] then
      throw ⟨.keyError, "drop: unknown column(s) " ++ pyListRepr missing ++
        ". Available: " ++ pyListRepr t.cols⟩ else
    pure (t.dropCols columns) : Except PyError Table) with
  | .error e => .fail ctx e
  | .ok t' => ⟨{ctx with lf := some (some t'), group_by_cols := some none}, [], none⟩

/-- `LimitNode.execute`. -/
def execLimit (ctx : Ctx) (n : Nat) : ExecRes :=
  match requireLf "limit" ctx with
  | .error e => .fail ctx e
  | .ok t => ⟨{ctx with lf := some (some (t.limitRows n)), group_by_cols := some none}, [], none⟩

/-- `DistinctNode.execute`. -/
def execDistinct (ctx : Ctx) : ExecRes :=
  match requireLf "distinct" ctx with
  | .error e => .fail ctx e
  | .ok t => ⟨{ctx with lf := some (some t.distinctRows), group_by_cols := some none}, [], none⟩

/-- `SampleNode.execute` (the engine's random sampler comes from `Env`). -/
def execSample (env : Env) (ctx : Ctx) (n : Option Nat) (pct : Option ℚ) : ExecRes :=
  match requireLf "sample" ctx with
  | .error e => .fail ctx e
  | .ok t =>
    let rows := match pct with
      | some p => env.sampleFrac (p * mkRat 1 100) t.rows
      | none => env.sampleN (min (n.getD 0) t.rows.length) t.rows
    ⟨{ctx with lf := some (some ⟨t.cols, rows⟩), group_by_cols := some none}, [], none⟩

/-- `SortNode.execute`. -/
def execSort (ctx : Ctx) (columns : List String) (ascending : List Bool) : ExecRes :=
  match (do
    let t ← requireLf "sort" ctx
    let missing := columns.filter (fun c => ¬ t.cols.contains c)
    if missing ≠ [] then
      throw ⟨.keyError, "sort: unknown column(s) " ++ pyListRepr missing ++
        ". Available: " ++ pyListRepr t.cols⟩ else
    pure (t.sortRows columns (ascending.map (!·))) : Except PyError Table) with
  | .error e => .fail ctx e
  | .ok t' => ⟨{ctx with lf := some (some t'), group_by_cols := some none}, [], none⟩

/-- `RenameNode.execute`. -/
def execRename (ctx : Ctx) (old_name new_name : String) : ExecRes :=
  match (do
    let t ← requireLf "rename" ctx
    if ¬ t.cols.contains old_name then
      throw (colNotFound "rename" old_name t.cols) else
    pure (t.renameCol old_name new_name) : Except PyError Table) with
  | .error e => .fail ctx e
  | .ok t' => ⟨{ctx with lf := some (some t'), group_by_cols := some none}, [], none⟩

/-- `AddNode.execute`.  The body after the `no data loaded` check runs in a
`try` whose handler re-raises everything as `ValueError`. -/
def execAdd (env : Env) (ctx : Ctx) (column expression : String) : ExecRes :=
  match requireLf "add" ctx with
  | .error e => .fail ctx e
  | .ok t =>
    let attempt : Except PyError Table := do
      let exprStr ← substitute_vars expression ctx
      match env.addExpr exprStr t.cols with
      | .error s => throw ⟨.valueError, s⟩
      | .ok f => pure (t.withColumn column (fun r => f (rowAssoc t.cols r)))
    match attempt with
    | .error e => .fail ctx ⟨.valueError,
        "add: could not evaluate expression '" ++ expression ++ "': " ++ strExc e⟩
    | .ok t' => ⟨{ctx with lf := some (some t'), group_by_cols := some none}, [], none⟩

/-- `AddIfNode.execute`. -/
def execAddIf (ctx : Ctx) (column cond_col cond_op cond_val true_val false_val : String) :
    ExecRes :=
  match (do
    let t ← requireLf "add" ctx
    if ¬ t.cols.contains cond_col then throw (colNotFound "add" cond_col t.cols) else
    let raw ← resolve_value cond_val ctx
    let rhs := coerce_rhs raw
    let _ ← applyPolarsFilterOk cond_op
    let trueF ← make_val_expr true_val ctx t
    let falseF ← make_val_expr false_val ctx t
    let ci := (t.colIdx cond_col).getD 0
    pure (t.withColumn column (fun r =>
      match valCmp (cellAt r ci) cond_op rhs with
      | some true => trueF r
      | some false => falseF r
      | none => .null)) : Except PyError Table) with
  | .error e => .fail ctx e
  | .ok t' => ⟨{ctx with lf := some (some t'), group_by_cols := some none}, [], none⟩

/-- Cast to string then apply `f` (trim / uppercase / lowercase share it). -/
def strColOp (f : String → String) (v : Val) : Val :=
  match v.toStr with
  | .str s => .str (f s)
  | x => x

/-- `TrimNode` / `UppercaseNode` / `LowercaseNode` `.execute` (they differ
only in verb and string function). -/
def execStrTransform (verb : String) (f : String → String) (ctx : Ctx) (column : String) :
    ExecRes :=
  match (do
    let t ← requireLf verb ctx
    if ¬ t.cols.contains column then throw (colNotFound verb column t.cols) else
    pure (t.withColumn column (fun r => strColOp f (cellAt r ((t.colIdx column).getD 0)))) :
    Except PyError Table) with
  | .error e => .fail ctx e
  | .ok t' => ⟨{ctx with lf := some (some t'), group_by_cols := some none}, [], none⟩

/-- `str.to_uppercase` (ASCII). -/
def strUpper (s : String) : String := ⟨s.data.map Char.toUpper⟩

/-- `str.to_lowercase` (ASCII). -/
def strLower (s : String) : String := ⟨s.data.map Char.toLower⟩

/-- `CastNode.execute`. -/
def execCast (ctx : Ctx) (column type_name : String) : ExecRes :=
  match (do
    let t ← requireLf "cast" ctx
    if ¬ t.cols.contains column then throw (colNotFound "cast" column t.cols) else
    let ty := pyLower type_name
    if ¬ polarsTypeNames.contains ty then
      throw ⟨.valueError, "cast: unknown type '" ++ type_name ++ "'. Supported: " ++
        String.intercalate ", " (stableSort (fun a b => ¬ b < a) polarsTypeNames)⟩ else
    pure (t.withColumn column (fun r => castVal ty (cellAt r ((t.colIdx column).getD 0)))) :
    Except PyError Table) with
  | .error e => .fail ctx e
  | .ok t' => ⟨{ctx with lf := some (some t'), group_by_cols := some none}, [], none⟩

/-- `ReplaceNode.execute`. -/
def execReplace (ctx : Ctx) (column old_value new_value : String) : ExecRes :=
  match (do
    let t ← requireLf "replace" ctx
    if ¬ t.cols.contains column then throw (colNotFound "replace" column t.cols) else
    let old := coerce_rhs old_value
    let new := coerce_rhs new_value
    pure (t.withColumn column (fun r =>
      let cell := cellAt r ((t.colIdx column).getD 0)
      if valCmp cell "==" old = some true then new else cell)) : Except PyError Table) with
  | .error e => .fail ctx e
  | .ok t' => ⟨{ctx with lf := some (some t'), group_by_cols := some none}, [], none⟩

/-- First-seen-order distinct values. -/
def seenOrder (vs : List Val) : List Val :=
  vs.foldl (fun a v => if a.contains v then a else a ++ [v]) []

/-- Sum of the numeric values of a list of cells (nulls ignored), null when
the list is empty — the pivot aggregate. -/
def sumCells (vs : List Val) : Val :=
  if vs = [] then .null
  else .num ((vs.filterMap (fun v => match v with | .num q => some q | _ => none)).foldl (·+·) 0)

/-- `df.pivot(values, index, on, aggregate_function="sum")`. -/
def pivotTable (t : Table) (index column value : String) : Table :=
  let ii := (t.colIdx index).getD 0
  let ci := (t.colIdx column).getD 0
  let vi := (t.colIdx value).getD 0
  let idxVals := seenOrder (t.rows.map (cellAt · ii))
  let onVals := seenOrder (t.rows.map (cellAt · ci))
  ⟨index :: onVals.map Val.render,
   idxVals.map (fun iv =>
     iv :: onVals.map (fun ov =>
       sumCells ((t.rows.filter (fun r => cellAt r ii = iv ∧ cellAt r ci = ov)).map
         (cellAt · vi))))⟩

/-- `PivotNode.execute`. -/
def execPivot (ctx : Ctx) (index column value : String) : ExecRes :=
  match (do
    let t ← requireLf "pivot" ctx
    match [index, column, value].find? (fun c => ¬ t.cols.contains c) with
    | some c => throw (colNotFound "pivot" c t.cols)
    | none => pure (pivotTable t index column value) : Except PyError Table) with
  | .error e => .fail ctx e
  | .ok t' => ⟨{ctx with lf := some (some t'), group_by_cols := some none}, [], none⟩

/-- `GroupByNode.execute`: validates the columns, then *only* sets
`group_by_cols` — the table is untouched. -/
def execGroupBy (ctx : Ctx) (columns : List String) : ExecRes :=
  match (do
    let t ← requireLf "group by" ctx
    let missing := columns.filter (fun c => ¬ t.cols.contains c)
    if missing ≠ [] then
      throw ⟨.keyError, "group by: unknown column(s) " ++ pyListRepr missing ++
        ". Available: " ++ pyListRepr t.cols⟩ else
    pure () : Except PyError Unit) with
  | .error e => .fail ctx e
  | .ok _ => ⟨{ctx with group_by_cols := some (some columns)}, [], none⟩

/-! ## Aggregation nodes -/

/-- Group rows by key columns (first-seen key order; the engine's group
order is unspecified). -/
def groupRows (t : Table) (gcols : List String) : List (List Val × List (List Val)) :=
  let idxs := gcols.map (fun c => (t.colIdx c).getD 0)
  let keyOf := fun (r : List Val) => idxs.map (cellAt r)
  let keys := (t.rows.map keyOf).foldl (fun a k => if a.contains k then a else a ++ [k]) []
  keys.map (fun k => (k, t.rows.filter (fun r => keyOf r = k)))

/-- Apply one of the engine aggregation functions (`sum`, `mean`, `min`,
`max`) to a list of cells, ignoring nulls as polars does. -/
def aggFn (fn : String) (vs : List Val) : Val :=
  let nums := vs.filterMap (fun v => match v with | .num q => some q | _ => none)
  match fn with
  | "sum" => .num (nums.foldl (·+·) 0)
  | "mean" => if nums.length = 0 then .null
              else .num (nums.foldl (·+·) 0 * mkRat 1 nums.length)
  | "min" => match nums with | [] => .null | h :: t => .num (t.foldl min h)
  | _ => match nums with | [] => .null | h :: t => .num (t.foldl max h)

/-- `CountNode.execute`.  Note the attribute-read order: `group_by_cols`
first, then `lf`. -/
def execCount (ctx : Ctx) : ExecRes :=
  match readGroupCols ctx with
  | .error e => .fail ctx e
  | .ok (some gcols) =>
    -- context.lf = context.lf.group_by(...).agg(len().alias("count"))
    (match ctx.lf with
     | none => .fail ctx (attrError "lf")
     | some none =>
       -- `None.group_by` — unreachable: no code path stores None in lf
       .fail ctx ⟨.attributeError, "'NoneType' object has no attribute 'group_by'"⟩
     | some (some t) =>
       let groups := groupRows t gcols
       let t' : Table := ⟨gcols ++ ["count"],
         groups.map (fun (k, rs) => k ++ [.num (rs.length : ℚ)])⟩
       ⟨{ctx with lf := some (some t'), group_by_cols := some none}, [], none⟩)
  | .ok none =>
    match ctx.lf with
    | none => .fail ctx (attrError "lf")
    | some none => .fail ctx ⟨.runtimeError, "count: no data loaded — use 'source' first"⟩
    | some (some t) =>
      ⟨{ctx with lf := some (some ⟨["count"], [[.num (t.rows.length : ℚ)]]⟩)}, [], none⟩

/-- `CountIfNode.execute`: prints the matching count, mutates nothing. -/
def execCountIf (ctx : Ctx) (column op value : String) : ExecRes :=
  match (do
    let t ← requireLf "count if" ctx
    if ¬ t.cols.contains column then throw (colNotFound "count if" column t.cols) else
    let raw ← resolve_value value ctx
    let rhs := coerce_rhs raw
    let _ ← applyPolarsFilterOk op
    let i := (t.colIdx column).getD 0
    pure ((t.rows.filter (fun r => valCmp (cellAt r i) op rhs = some true)).length) :
    Except PyError Nat) with
  | .error e => .fail ctx e
  | .ok n =>
    ⟨ctx, ["count if " ++ column ++ " " ++ op ++ " " ++ value ++ ": " ++ toString n], none⟩

/-- The `_AggNode.execute` produced by `_agg_node(verb, agg_fn)`
(`SumNode`, `AvgNode`, `MinNode`, `MaxNode`).  Attribute-read order:
`lf` first, then (after the column check) `group_by_cols`. -/
def execAggSingle (verb fn : String) (ctx : Ctx) (column : String) : ExecRes :=
  match (do
    let t ← requireLf verb ctx
    if ¬ t.cols.contains column then throw (colNotFound verb column t.cols) else
    let gc ← readGroupCols ctx
    pure (t, gc) : Except PyError (Table × Option (List String))) with
  | .error e => .fail ctx e
  | .ok (t, some gcols) =>
    let i := (t.colIdx column).getD 0
    let groups := groupRows t gcols
    let t' : Table := ⟨gcols ++ [column],
      groups.map (fun (k, rs) => k ++ [aggFn fn (rs.map (cellAt · i))])⟩
    ⟨{ctx with lf := some (some t'), group_by_cols := some none}, [], none⟩
  | .ok (t, none) =>
    let i := (t.colIdx column).getD 0
    ⟨{ctx with lf := some (some ⟨[column], [[aggFn fn (t.rows.map (cellAt · i))]]⟩)},
     [], none⟩

/-- Validation loop of `MultiAggNode.execute` over the specs. -/
def multiAggCheck (cols : List String) : List (String × Option String) →
    Except PyError (List (String × Option String))
  | [] => .ok []
  | (verb, col) :: rest => do
    if verb = "count" then
      let r ← multiAggCheck cols rest
      pure (("count", none) :: r)
    else
      match col with
      | none => throw ⟨.valueError, "agg: '" ++ verb ++ "' requires a column name"⟩
      | some c =>
        if ¬ cols.contains c then
          throw ⟨.keyError, "agg: column '" ++ c ++ "' not found. Available: " ++
            pyListRepr cols⟩
        else do
          let r ← multiAggCheck cols rest
          pure ((verb, some c) :: r)

/-- `_FN_MAP` of `MultiAggNode.execute`. -/
def multiAggFn (verb : String) : String :=
  if verb = "avg" then "mean" else verb

/-- `MultiAggNode.execute`. -/
def execMultiAgg (ctx : Ctx) (specs : List (String × Option String)) : ExecRes :=
  match (do
    let t ← requireLf "agg" ctx
    let gc ← readGroupCols ctx
    match gc with
    | none => throw ⟨.runtimeError,
        "agg: must follow 'group by'. Example:\n  group by country\n  agg sum salary, avg age, count"⟩
    | some gcols => do
      let checked ← multiAggCheck t.cols specs
      if checked = [] then
        throw ⟨.valueError, "agg: no valid aggregation specs provided"⟩ else
      pure (t, gcols, checked) :
    Except PyError (Table × List String × List (String × Option String))) with
  | .error e => .fail ctx e
  | .ok (t, gcols, checked) =>
    let groups := groupRows t gcols
    let names := checked.map (fun (v, c) => if v = "count" then "count" else c.getD "")
    let t' : Table := ⟨gcols ++ names,
      groups.map (fun (k, rs) => k ++ checked.map (fun (v, c) =>
        if v = "count" then .num (rs.length : ℚ)
        else aggFn (multiAggFn v) (rs.map (cellAt · ((t.colIdx (c.getD "")).getD 0)))))⟩
    ⟨{ctx with lf := some (some t'), group_by_cols := some none}, [], none⟩

/-! ## Multi-source nodes -/

/-- `_JOIN_HOW_MAP`. -/
def joinHowMap (how : String) : String :=
  if how = "outer" then "full" else how

/-- Engine join on one key (multiset semantics; the engine's column-suffix
rules for non-key name collisions are reproduced with `_right`). -/
def joinTables (l r : Table) (key : String) (plHow : String) : Table :=
  let li := (l.colIdx key).getD 0
  let ri := (r.colIdx key).getD 0
  let rKept := r.cols.filter (· ≠ key)
  let outCols := l.cols ++ rKept.map (fun c => if l.cols.contains c then c ++ "_right" else c)
  let rightCells := fun (rr : List Val) =>
    ((r.cols.zip rr).filter (fun p => p.1 ≠ key)).map Prod.snd
  let matchesOf := fun (lr : List Val) => r.rows.filter (fun rr => cellAt rr ri = cellAt lr li)
  let lMatchesOf := fun (rr : List Val) => l.rows.filter (fun lr => cellAt lr li = cellAt rr ri)
  let nullsR := rKept.map (fun _ => Val.null)
  -- a left row of nulls whose key is coalesced from the right row
  let coalescedLeft := fun (rr : List Val) =>
    (List.range l.cols.length).map (fun j => if j = li then cellAt rr ri else Val.null)
  let innerRows := l.rows.flatMap (fun lr => (matchesOf lr).map (fun rr => lr ++ rightCells rr))
  let rows :=
    if plHow = "inner" then innerRows
    else if plHow = "left" then
      l.rows.flatMap (fun lr =>
        match matchesOf lr with
        | [] => [lr ++ nullsR]
        | ms => ms.map (fun rr => lr ++ rightCells rr))
    else if plHow = "right" then
      r.rows.flatMap (fun rr =>
        match lMatchesOf rr with
        | [] => [coalescedLeft rr ++ rightCells rr]
        | ms => ms.map (fun lr => lr ++ rightCells rr))
    else -- "full" with coalesce
      innerRows
        ++ (l.rows.filter (fun lr => matchesOf lr = [])).map (fun lr => lr ++ nullsR)
        ++ (r.rows.filter (fun rr => lMatchesOf rr = [])).map
             (fun rr => coalescedLeft rr ++ rightCells rr)
  ⟨outCols, rows⟩

/-- `JoinNode.execute`. -/
def execJoin (env : Env) (ctx : Ctx) (file_path key how : String) : ExecRes :=
  match (do
    let t ← requireLf "join" ctx
    let path ← substitute_vars file_path ctx
    match check_path_sandbox env.canon path ctx with
    | some e => throw e
    | none =>
    if ¬ env.pathExists path then
      throw ⟨.fileNotFoundError, "join: file not found: '" ++ path ++ "'"⟩ else
    if ¬ t.cols.contains key then
      throw ⟨.keyError, "join: key '" ++ key ++ "' not in current data. Available: " ++
        pyListRepr t.cols⟩ else
    match env.fs path with
    | none => throw ⟨.fileNotFoundError, "join: file not found: '" ++ path ++ "'"⟩
    | some rt =>
      if ¬ rt.cols.contains key then
        throw ⟨.keyError, "join: key '" ++ key ++ "' not found in '" ++ path ++
          "'. Available: " ++ pyListRepr rt.cols⟩ else
      pure (joinTables t rt key (joinHowMap how)) : Except PyError Table) with
  | .error e => .fail ctx e
  | .ok t' => ⟨{ctx with lf := some (some t'), group_by_cols := some none}, [], none⟩

/-- `MergeNode.execute`. -/
def execMerge (env : Env) (ctx : Ctx) (file_path : String) : ExecRes :=
  match (do
    let t ← requireLf "merge" ctx
    let path ← substitute_vars file_path ctx
    match check_path_sandbox env.canon path ctx with
    | some e => throw e
    | none =>
    if ¬ env.pathExists path then
      throw ⟨.fileNotFoundError, "merge: file not found: '" ++ path ++ "'"⟩ else
    match env.fs path with
    | none => throw ⟨.fileNotFoundError, "merge: file not found: '" ++ path ++ "'"⟩
    | some ot => pure (concatDiagonal [t, ot]) : Except PyError Table) with
  | .error e => .fail ctx e
  | .ok t' => ⟨{ctx with lf := some (some t'), group_by_cols := some none}, [], none⟩

/-! ## Output / inspection nodes -/

/-- Rough text rendering of a table (stdout formatting is an out-of-scope
external; no claim depends on it). -/
def tableRender (t : Table) : String :=
  String.intercalate "\n"
    ((String.intercalate " " t.cols) :: t.rows.map (fun r =>
      String.intercalate " " (r.map Val.render)))

/-- `SaveNode.execute`: write-out is an external effect; the context is
unchanged (note: grouping is *not* cleared). -/
def execSave (env : Env) (ctx : Ctx) (file_path : String) : ExecRes :=
  match (do
    match ← readLf ctx with
    | none => throw ⟨.runtimeError, "save: no data to save — pipeline produced no output"⟩
    | some _ => pure ()
    let path ← substitute_vars file_path ctx
    match check_path_sandbox env.canon path ctx with
    | some e => throw e
    | none => pure () : Except PyError Unit) with
  | .error e => .fail ctx e
  | .ok _ => ⟨ctx, [], none⟩

/-- `PrintNode.execute`. -/
def execPrint (ctx : Ctx) : ExecRes :=
  match requireLf "print" ctx with
  | .error e => .fail ctx e
  | .ok t => ⟨ctx, [tableRender t], none⟩

/-- `SchemaNode.execute` (print-only; body text approximated). -/
def execSchema (ctx : Ctx) : ExecRes :=
  match requireLf "schema" ctx with
  | .error e => .fail ctx e
  | .ok t => ⟨ctx, ["\nSchema  (" ++ toString t.cols.length ++ " column(s), " ++
      toString t.rows.length ++ " row(s)):"], none⟩

/-- `InspectNode.execute` (print-only; body text approximated). -/
def execInspect (ctx : Ctx) : ExecRes :=
  match requireLf "inspect" ctx with
  | .error e => .fail ctx e
  | .ok t => ⟨ctx, ["\nInspect  (" ++ toString t.cols.length ++ " column(s), " ++
      toString t.rows.length ++ " row(s)):"], none⟩

/-- `HeadNode.execute` (print-only). -/
def execHead (ctx : Ctx) (n : Nat) : ExecRes :=
  match requireLf "head" ctx with
  | .error e => .fail ctx e
  | .ok t => ⟨ctx, ["\nHead (" ++ toString n ++ " row(s)):", tableRender (t.limitRows n), ""],
      none⟩

/-- `LogNode.execute`. -/
def execLog (ctx : Ctx) (message : String) : ExecRes :=
  match substitute_vars (pyStripChars quoteChars message) ctx with
  | .error e => .fail ctx e
  | .ok m => ⟨ctx, ["[LOG] " ++ m], none⟩

/-! ## Quality / variable nodes -/

/-- `AssertNode.execute`. -/
def execAssert (ctx : Ctx) (column op value : String) : ExecRes :=
  match (do
    let t ← requireLf "assert" ctx
    if ¬ t.cols.contains column then throw (colNotFound "assert" column t.cols) else
    let raw ← resolve_value value ctx
    let rhs := coerce_rhs raw
    match applyPolarsFilterOk op with
    | .error e => throw ⟨.valueError, "assert: " ++ e.msg⟩
    | .ok _ =>
    let i := (t.colIdx column).getD 0
    -- filter(~mask) keeps only rows whose mask is definitely false
    let failures := (t.rows.filter (fun r => valCmp (cellAt r i) op rhs = some false)).length
    if failures ≠ 0 then
      throw ⟨.assertionError, "assert: " ++ toString failures ++
        " row(s) failed condition '" ++ column ++ " " ++ op ++ " " ++ value ++ "'"⟩
    else pure () : Except PyError Unit) with
  | .error e => .fail ctx e
  | .ok _ => ⟨ctx, [], none⟩

/-- Approximate polars column dtype test `dtype in (pl.String, pl.Utf8)`:
every non-null cell is a string and at least one is. -/
def colIsString (cells : List Val) : Bool :=
  (cells.all (fun v => match v with | .num _ => false | _ => true)) &&
  (cells.any (fun v => match v with | .str _ => true | _ => false))

/-- Cast a cell to Float64 for the `mean` / `median` fill strategies
(approximated as non-strict; unparseable strings become null). -/
def castF (v : Val) : Option ℚ :=
  match v with
  | .num q => some q
  | .str s => pyFloat s
  | .null => none

/-- Median of a list of rationals (mean of the middle pair on even length). -/
def medianQ (qs : List ℚ) : Option ℚ :=
  match stableSort (fun a b => a ≤ b) qs with
  | [] => none
  | sorted =>
    let n := sorted.length
    if n % 2 = 1 then sorted.get? (n / 2)
    else match sorted.get? (n / 2 - 1), sorted.get? (n / 2) with
      | some a, some b => some ((a + b) * mkRat 1 2)
      | _, _ => none

/-- Most frequent value of a column (first-seen on ties; engine order is
unspecified). -/
def modeVal (cells : List Val) : Option Val :=
  let nonNull := cells.filter (· ≠ .null)
  let counts := (seenOrder nonNull).map (fun v => (v, (nonNull.filter (· = v)).length))
  match counts with
  | [] => none
  | h :: t => some ((t.foldl (fun best p => if p.2 > best.2 then p else best) h).1)

/-- Forward fill. -/
def ffill (last : Val) : List Val → List Val
  | [] => []
  | .null :: rest => last :: ffill last rest
  | v :: rest => v :: ffill v rest

/-- Map one column of a table through a whole-column function. -/
def Table.mapCol (t : Table) (i : Nat) (f : List Val → List Val) : Table :=
  let newCol := f (t.rows.map (cellAt · i))
  ⟨t.cols, (t.rows.zip newCol).map (fun (r, v) => r.set i v)⟩

/-- `FillNode.execute`. -/
def execFill (ctx : Ctx) (column strategy : String) : ExecRes :=
  match (do
    let t ← requireLf "fill" ctx
    if ¬ t.cols.contains column then throw (colNotFound "fill" column t.cols) else
    pure t : Except PyError Table) with
  | .error e => .fail ctx e
  | .ok t =>
    let i := (t.colIdx column).getD 0
    let s := pyLower (pyStrip strategy)
    -- for string columns, empty strings become null first
    let t := if colIsString (t.rows.map (cellAt · i)) then
        t.mapCol i (·.map (fun v => if v = .str "" then .null else v))
      else t
    let cells := t.rows.map (cellAt · i)
    let t' :=
      if s = "mean" then
        let nums := cells.filterMap castF
        let m : Option ℚ := if nums.length = 0 then none
          else some (nums.foldl (·+·) 0 / (nums.length : ℚ))
        t.mapCol i (·.map (fun v => match castF v with
          | some q => .num q
          | none => match m with | some q => .num q | none => .null))
      else if s = "median" then
        let m := medianQ (cells.filterMap castF)
        t.mapCol i (·.map (fun v => match castF v with
          | some q => .num q
          | none => match m with | some q => .num q | none => .null))
      else if s = "mode" then
        match modeVal cells with
        | some fv => t.mapCol i (·.map (fun v => if v = .null then fv else v))
        | none => t
      else if s = "forward" then t.mapCol i (ffill .null)
      else if s = "backward" then t.mapCol i (fun c => (ffill .null c.reverse).reverse)
      else if s = "drop" then ⟨t.cols, t.rows.filter (fun r => cellAt r i ≠ .null)⟩
      else
        let raw := pyStripChars quoteChars strategy
        let fv := match pyFloat raw with
          | some q => Val.num q
          | none => Val.str raw
        t.mapCol i (·.map (fun v => if v = .null then fv else v))
    ⟨{ctx with lf := some (some t'), group_by_cols := some none}, [], none⟩

/-- `SetNode.execute`. -/
def execSet (ctx : Ctx) (name value : String) : ExecRes :=
  let v := pyStripChars quoteChars value
  let ctx := {ctx with vars := dictSet ctx.vars name v}
  if name = "sandbox" then ⟨{ctx with sandbox_dir := some v}, [], none⟩
  else ⟨ctx, [], none⟩

/-- `EnvNode.execute`. -/
def execEnv (env : Env) (ctx : Ctx) (var_name : String) : ExecRes :=
  match env.osEnv var_name with
  | none => .fail ctx ⟨.runtimeError,
      "env: environment variable '" ++ var_name ++ "' is not set"⟩
  | some v => ⟨{ctx with vars := dictSet ctx.vars var_name v}, [], none⟩

/-! ## The AST (`ast_nodes.py` node classes reachable from the parser)

`TimerNode` and the datetime nodes (`ParseDateNode`, `ExtractNode`,
`DateDiffNode`, `FilterDateNode`, `TruncateDateNode`, `TsSortNode`) exist in
`ast_nodes.py` but `ppl_parser.py` never constructs them (its `_PARSERS`
table has no entry for their keywords), so they cannot occur in a parsed
pipeline; see the C2 theorems. -/

inductive Node where
  | sourceN (file_path : String) (chunk_size : Option Nat)
  | foreachN (pattern : String)
  | includeN (file_path : String)
  | filterN (column op value : String)
  | compoundFilterN (conditions : List (String × String × String)) (logic : List String)
  | selectN (columns : List String)
  | dropN (columns : List String)
  | limitN (n : Nat)
  | distinctN
  | sampleN (n : Option Nat) (pct : Option ℚ)
  | sortN (columns : List String) (ascending : List Bool)
  | renameN (old_name new_name : String)
  | addN (column expression : String)
  | addIfN (column cond_col cond_op cond_val true_val false_val : String)
  | trimN (column : String)
  | uppercaseN (column : String)
  | lowercaseN (column : String)
  | castN (column type_name : String)
  | replaceN (column old_value new_value : String)
  | pivotN (index column value : String)
  | groupByN (columns : List String)
  | countN
  | countIfN (column op value : String)
  | sumN (column : String)
  | avgN (column : String)
  | minN (column : String)
  | maxN (column : String)
  | multiAggN (specs : List (String × Option String))
  | joinN (file_path key how : String)
  | mergeN (file_path : String)
  | saveN (file_path : String)
  | printN
  | schemaN
  | inspectN
  | headN (n : Nat)
  | logN (message : String)
  | assertN (column op value : String)
  | fillN (column strategy : String)
  | setN (name value : String)
  | envN (var_name : String)
  | tryN (body : List Node) (on_error_nodes : List Node) (error_action : String)
  deriving Repr

/-- `node.__class__.__name__`. -/
def Node.pyName : Node → String
  | .sourceN .. => "SourceNode"
  | .foreachN .. => "ForeachNode"
  | .includeN .. => "IncludeNode"
  | .filterN .. => "FilterNode"
  | .compoundFilterN .. => "CompoundFilterNode"
  | .selectN .. => "SelectNode"
  | .dropN .. => "DropNode"
  | .limitN .. => "LimitNode"
  | .distinctN => "DistinctNode"
  | .sampleN .. => "SampleNode"
  | .sortN .. => "SortNode"
  | .renameN .. => "RenameNode"
  | .addN .. => "AddNode"
  | .addIfN .. => "AddIfNode"
  | .trimN .. => "TrimNode"
  | .uppercaseN .. => "UppercaseNode"
  | .lowercaseN .. => "LowercaseNode"
  | .castN .. => "CastNode"
  | .replaceN .. => "ReplaceNode"
  | .pivotN .. => "PivotNode"
  | .groupByN .. => "GroupByNode"
  | .countN => "CountNode"
  | .countIfN .. => "CountIfNode"
  | .sumN .. => "SumNode"
  | .avgN .. => "AvgNode"
  | .minN .. => "MinNode"
  | .maxN .. => "MaxNode"
  | .multiAggN .. => "MultiAggNode"
  | .joinN .. => "JoinNode"
  | .mergeN .. => "MergeNode"
  | .saveN .. => "SaveNode"
  | .printN => "PrintNode"
  | .schemaN => "SchemaNode"
  | .inspectN => "InspectNode"
  | .headN .. => "HeadNode"
  | .logN .. => "LogNode"
  | .assertN .. => "AssertNode"
  | .fillN .. => "FillNode"
  | .setN .. => "SetNode"
  | .envN .. => "EnvNode"
  | .tryN .. => "TryNode"

/-- `_CHUNK_SAFE_NODE_NAMES` membership (executor.py). -/
def chunkSafeNames : List String :=
  ["FilterNode", "CompoundFilterNode", "SelectNode", "DropNode",
   "CastNode", "RenameNode", "TrimNode", "UppercaseNode", "LowercaseNode",
   "AddNode", "AddIfNode", "ReplaceNode", "FillNode"]

/-- Whether a node's class name is in the chunk-safe set. -/
def isChunkSafe (n : Node) : Bool := chunkSafeNames.contains n.pyName

/-- Nodes whose successful `execute` ends with `context.group_by_cols = None`:
the aggregations (which consume a pending grouping) and every command that
rebinds `context.lf` (each of their `execute` bodies assigns
`context.group_by_cols = None`, or in `count`/`sum`/... without a pending
grouping, leaves the `None` that let it take that branch). -/
def clearsGrouping (n : Node) : Bool :=
  match n with
  | .sourceN .. | .foreachN .. | .filterN .. | .compoundFilterN .. | .selectN ..
  | .dropN .. | .limitN .. | .distinctN | .sampleN .. | .sortN .. | .renameN ..
  | .addN .. | .addIfN .. | .trimN .. | .uppercaseN .. | .lowercaseN ..
  | .castN .. | .replaceN .. | .pivotN .. | .joinN .. | .mergeN .. | .fillN ..
  | .countN | .sumN .. | .avgN .. | .minN .. | .maxN .. | .multiAggN .. => true
  | _ => false

/-! ## The parser (`ppl_parser.py`) -/

/-- The `f"Line {line_no}: ..."` prefix every parser error carries. -/
def mkLineErr (line_no : Nat) (rest : String) : String :=
  "Line " ++ toString line_no ++ ": " ++ rest

/-- Parse each element, propagating the first error (the list
comprehensions / loops of the source). -/
def parseEach (f : α → Except String β) : List α → Except String (List β)
  | [] => .ok []
  | x :: xs => do
    let y ← f x
    let ys ← parseEach f xs
    pure (y :: ys)

/-- `_strip_quotes`: `_QUOTED_RE = ^["'](.+)["']$` applied to the stripped
value; on a match return group 1, else the stripped value.  Note the regex
admits *different* outer quote characters, the `.` cannot cross a newline,
and the content must be non-empty. -/
def strip_quotes (value : String) : String :=
  let t := pyStrip value
  match t.data with
  | c1 :: rest =>
    if rest.length ≥ 2 ∧ quoteChars.contains c1 ∧ quoteChars.contains (rest.getLastD ' ')
        ∧ ¬ rest.dropLast.contains '\n' ∧ ¬ c1 = '\n'
    then ⟨rest.dropLast⟩ else t
  | [] => t

/-- Index of the first occurrence of `needle` in `hay` (Python `in` / `split`). -/
def findSubstr (needle hay : List Char) : Option Nat :=
  (List.range (hay.length + 1)).find? (fun i => needle.isPrefixOf (hay.drop i))

/-- `_parse_condition_tuple`: try the operators of `_FILTER_OPERATORS` in
order; split at the first occurrence; accept when both sides are non-empty
after stripping, otherwise move on to the next operator. -/
def condTupleGo (cond : String) (line_no : Nat) (cx : String) :
    List String → Except String (String × String × String)
  | [] => .error (mkLineErr line_no ("could not parse '" ++ cx ++
      "' condition '" ++ cond ++ "'. Expected: " ++ cx ++
      " <column> <op> <value>  (e.g. " ++ cx ++ " age > 18)"))
  | op :: ops =>
    match findSubstr op.data cond.data with
    | none => condTupleGo cond line_no cx ops
    | some i =>
      let column := pyStrip ⟨cond.data.take i⟩
      let value := pyStrip ⟨cond.data.drop (i + op.length)⟩
      if column ≠ "" ∧ value ≠ "" then .ok (column, op, value)
      else condTupleGo cond line_no cx ops

/-- `_parse_condition_tuple` entry point. -/
def parse_condition_tuple (cond_str : String) (line_no : Nat) (cx : String) :
    Except String (String × String × String) :=
  condTupleGo (pyStrip cond_str) line_no cx operatorList

/-- Match `\s+(and|or)\s+` at the head of `cs` (`_COMPOUND_SPLIT_RE`,
case-insensitive): returns the lowered word and the number of characters the
whole separator consumes. -/
def matchLogicAt (cs : List Char) : Option (String × Nat) :=
  let ws := cs.takeWhile pyIsSpace
  if ws = [] then none else
  let r := cs.dropWhile pyIsSpace
  let tryWord := fun (w : String) =>
    if pyLower ⟨r.take w.length⟩ = w then
      let r2 := r.drop w.length
      let ws2 := r2.takeWhile pyIsSpace
      if ws2 ≠ [] then some (ws.length + w.length + ws2.length) else none
    else none
  match tryWord "and" with
  | some k => some ("and", k)
  | none => (tryWord "or").map (fun k => ("or", k))

/-- `re.split` with `_COMPOUND_SPLIT_RE`: the parts and the (lowered)
captured separators.  The first argument is structural-recursion fuel (one
unit per character, as each step consumes at least one). -/
def compoundSplitGo : Nat → List Char → List Char → List String × List String
  | _, [], acc => ([⟨acc.reverse⟩], [])
  | 0, _ :: _, acc => ([⟨acc.reverse⟩], [])
  | fuel + 1, c :: rest, acc =>
    match matchLogicAt (c :: rest) with
    | some (w, k + 1) =>
      let (ps, ls) := compoundSplitGo fuel (rest.drop k) []
      (⟨acc.reverse⟩ :: ps, w :: ls)
    | _ => compoundSplitGo fuel rest (c :: acc)

/-- `_parse_filter` (also the `where` alias): single condition or AND/OR
compound. -/
def parse_filter (args0 : String) (line_no : Nat) : Except String Node := do
  let args := pyStrip args0
  let (parts, logic) := compoundSplitGo args.data.length args.data []
  match parts with
  | [_] =>
    let (c, o, v) ← parse_condition_tuple args line_no "filter"
    .ok (.filterN c o v)
  | _ => do
    let conds ← parseEach (fun p => parse_condition_tuple (pyStrip p) line_no "filter") parts
    .ok (.compoundFilterN conds logic)

/-- Shared comma-list splitter: `[c.strip() for c in args.split(",") if c.strip()]`. -/
def commaList (args : String) : List String :=
  ((args.data.splitOn ',').map (fun l => pyStrip ⟨l⟩)).filter (· ≠ "")

/-- `_parse_select`. -/
def parse_select (args : String) (line_no : Nat) : Except String Node :=
  match commaList args with
  | [] => .error (mkLineErr line_no
      "'select' requires at least one column. Example: select name, age")
  | cs => .ok (.selectN cs)

/-- `_parse_group_by`. -/
def parse_group_by (args : String) (line_no : Nat) : Except String Node :=
  let lowered := pyLower (pyStrip args)
  if ¬ pyStartswith lowered "by" then
    .error (mkLineErr line_no
      "'group' must be followed by 'by'. Example: group by country")
  else
    let remainder := pyStrip (pyDropFirst 2 (pyStrip args))
    match commaList remainder with
    | [] => .error (mkLineErr line_no
        "'group by' requires at least one column. Example: group by country")
    | cs => .ok (.groupByN cs)

/-- `_parse_count`. -/
def parse_count (args0 : String) (line_no : Nat) : Except String Node := do
  let args := pyStrip args0
  if args = "" then .ok .countN
  else if pyStartswith (pyLower args) "if " then
    let (c, o, v) ← parse_condition_tuple (pyStrip (pyDropFirst 3 args)) line_no "count if"
    .ok (.countIfN c o v)
  else .error (mkLineErr line_no
    "'count' takes no arguments or 'count if <condition>'. Example: count  or  count if salary > 50000")

/-- `_parse_save`. -/
def parse_save (args : String) (line_no : Nat) : Except String Node :=
  let path := strip_quotes (pyStrip args)
  if path = "" then .error (mkLineErr line_no
    "'save' requires a file path. Example: save \"output/results.csv\"")
  else .ok (.saveN path)

/-- One `col [asc|desc]` item of `_parse_sort`. -/
def sortItem (part : String) (line_no : Nat) : Except String (String × Bool) :=
  let tokens := pySplitWs part
  let col := tokens.headD ""
  let direction := if tokens.length > 1 then pyLower (tokens.getD 1 "") else "asc"
  if direction ≠ "asc" ∧ direction ≠ "desc" then
    .error (mkLineErr line_no
      ("sort direction must be 'asc' or 'desc', got '" ++ direction ++ "'"))
  else .ok (col, direction = "asc")

/-- `_parse_sort`. -/
def parse_sort (args : String) (line_no : Nat) : Except String Node := do
  let lowered := pyLower (pyStrip args)
  if ¬ pyStartswith lowered "by" then
    .error (mkLineErr line_no
      "'sort' must be followed by 'by'. Example: sort by age desc")
  else
    let remainder := pyStrip (pyDropFirst 2 (pyStrip args))
    match commaList remainder with
    | [] => .error (mkLineErr line_no
        "'sort by' requires at least one column. Example: sort by age desc")
    | parts => do
      let items ← parseEach (fun p => sortItem p line_no) parts
      .ok (.sortN (items.map Prod.fst) (items.map Prod.snd))

/-- `_parse_rename`. -/
def parse_rename (args : String) (line_no : Nat) : Except String Node :=
  match pySplitWs (pyStrip args) with
  | [a, b] => .ok (.renameN a b)
  | _ => .error (mkLineErr line_no
      "'rename' requires exactly two column names. Example: rename old_name new_name")

/-- Find the earliest index `j ≥ 1` in `cs` at which `\s+kw\s+`
(case-insensitive) matches, i.e. a whitespace run, the keyword, and another
whitespace run; returns the prefix before `j` and the suffix after the
second run.  This is how the lazy groups of `_IF_THEN_ELSE_RE` resolve. -/
def findKwSplit (kw : String) (cs : List Char) (acc : List Char) :
    Option (List Char × List Char) :=
  match cs with
  | [] => none
  | c :: rest =>
    let attempt :=
      if acc ≠ [] ∧ pyIsSpace c then
        let r := cs.dropWhile pyIsSpace
        if pyLower ⟨r.take kw.length⟩ = kw then
          let r2 := r.drop kw.length
          let ws2 := r2.takeWhile pyIsSpace
          if ws2 ≠ [] then some (acc.reverse, r2.dropWhile pyIsSpace) else none
        else none
      else none
    match attempt with
    | some v => some v
    | none => findKwSplit kw rest (c :: acc)

/-- `_IF_THEN_ELSE_RE.match(expr)`: `^if\s+(.+?)\s+then\s+(.+?)\s+else\s+(.+)$`
(case-insensitive).  Returns `(cond, true_val, false_val)` on a match.
The final greedy `(.+)$` requires a non-empty remainder; `expr` is already
stripped by `_parse_add`, so the remainder after the last separator is
non-empty exactly when the separator matched. -/
def matchIfThenElse (expr : String) : Option (String × String × String) :=
  let cs := expr.data
  if pyLower ⟨cs.take 2⟩ = "if" then
    let r := cs.drop 2
    if r.takeWhile pyIsSpace = [] then none else
    let body := r.dropWhile pyIsSpace
    match findKwSplit "then" body [] with
    | none => none
    | some (cond, afterThen) =>
      match findKwSplit "else" afterThen [] with
      | none => none
      | some (tval, fval) =>
        if fval = [] then none
        else some (⟨cond⟩, ⟨tval⟩, ⟨fval⟩)
  else none

/-- `_parse_add`. -/
def parse_add (args : String) (line_no : Nat) : Except String Node := do
  if ¬ args.data.contains '=' then
    .error (mkLineErr line_no
      "'add' requires '='. Example: add tax = price * 0.2")
  else
    match findSubstr ['='] args.data with
    | none => .error (mkLineErr line_no
        "'add' requires '='. Example: add tax = price * 0.2")
    | some i =>
      let col := pyStrip ⟨args.data.take i⟩
      let expr := pyStrip ⟨args.data.drop (i + 1)⟩
      if col = "" ∨ expr = "" then
        .error (mkLineErr line_no
          "'add' requires a column name and expression. Example: add tax = price * 0.2")
      else
        match matchIfThenElse expr with
        | some (condStr, tval, fval) => do
          let (cc, co, cv) ← parse_condition_tuple (pyStrip condStr) line_no "add"
          .ok (.addIfN col cc co cv (pyStrip tval) (pyStrip fval))
        | none => .ok (.addN col expr)

/-- `_parse_drop`. -/
def parse_drop (args : String) (line_no : Nat) : Except String Node :=
  match commaList args with
  | [] => .error (mkLineErr line_no
      "'drop' requires at least one column. Example: drop salary, department")
  | cs => .ok (.dropN cs)

/-- `_parse_limit`. -/
def parse_limit (args : String) (line_no : Nat) : Except String Node :=
  match pyInt (pyStrip args) with
  | some n => if n < 0 then
      .error (mkLineErr line_no
        "'limit' requires a positive integer. Example: limit 100")
    else .ok (.limitN n.toNat)
  | none => .error (mkLineErr line_no
      "'limit' requires a positive integer. Example: limit 100")

/-- `_parse_sample`. -/
def parse_sample (args0 : String) (line_no : Nat) : Except String Node :=
  let args := pyStrip args0
  if pyEndswith args "%" then
    match pyFloat ⟨args.data.dropLast⟩ with
    | some p =>
      if 0 < p ∧ p ≤ 100 then .ok (.sampleN none (some p))
      else .error (mkLineErr line_no
        "'sample N%' requires a percentage between 0 and 100. Example: sample 10%")
    | none => .error (mkLineErr line_no
        "'sample N%' requires a percentage between 0 and 100. Example: sample 10%")
  else
    match pyInt args with
    | some n => if n < 0 then
        .error (mkLineErr line_no
          "'sample' requires a positive integer or percentage. Example: sample 100  or  sample 10%")
      else .ok (.sampleN (some n.toNat) none)
    | none => .error (mkLineErr line_no
        "'sample' requires a positive integer or percentage. Example: sample 100  or  sample 10%")

/-- `_parse_string_transform(node_cls, verb)`. -/
def parse_string_transform (mk : String → Node) (verb : String)
    (args : String) (line_no : Nat) : Except String Node :=
  let col := pyStrip args
  if col = "" then
    .error (mkLineErr line_no ("'" ++ verb ++
      "' requires a column name. Example: " ++ verb ++ " country"))
  else .ok (mk col)

/-- `_parse_cast`. -/
def parse_cast (args : String) (line_no : Nat) : Except String Node :=
  match pySplitWs (pyStrip args) with
  | [c, ty] => .ok (.castN c ty)
  | _ => .error (mkLineErr line_no
      "'cast' requires a column name and a type. Example: cast age int")

/-- The alternatives of `(["\'].*?["\']|\S+)` at the head of `cs`, in the
regex preference order (lazy quoted forms with each possible closing quote,
then the greedy non-whitespace run). -/
def replaceArgCandidates (cs : List Char) : List (List Char × List Char) :=
  let nonWs := cs.takeWhile (fun c => ¬ pyIsSpace c)
  let nonWsCand := if nonWs ≠ [] then [(nonWs, cs.drop nonWs.length)] else []
  match cs with
  | c :: rest =>
    if quoteChars.contains c then
      (((List.range rest.length).filter
          (fun i => quoteChars.contains (rest.getD i ' '))).map
        (fun i => (c :: rest.take i ++ [rest.getD i ' '], rest.drop (i + 1)))) ++ nonWsCand
    else nonWsCand
  | [] => nonWsCand

/-- `_parse_replace`: `^(\S+)\s+(["\'].*?["\']|\S+)\s+(["\'].*?["\']|\S+)$`. -/
def parse_replace (args : String) (line_no : Nat) : Except String Node :=
  let err : Except String Node := .error (mkLineErr line_no
    "'replace' requires column, old value, and new value. Example: replace country \"Germany\" \"DE\"")
  let cs := (pyStrip args).data
  let tok1 := cs.takeWhile (fun c => ¬ pyIsSpace c)
  if tok1 = [] then err else
  let r1 := cs.drop tok1.length
  if r1.takeWhile pyIsSpace = [] then err else
  let r2 := r1.dropWhile pyIsSpace
  let found := (replaceArgCandidates r2).findSome? (fun (a2, rest2) =>
    if rest2.takeWhile pyIsSpace = [] then none else
    let r3 := rest2.dropWhile pyIsSpace
    ((replaceArgCandidates r3).findSome? (fun (a3, rest3) =>
      if rest3 = [] then some (a2, a3) else none)))
  match found with
  | some (a2, a3) =>
    .ok (.replaceN ⟨tok1⟩ (strip_quotes ⟨a2⟩) (strip_quotes ⟨a3⟩))
  | none => err

/-- Case-insensitive literal match at the head of `cs`. -/
def matchLit (lit : String) (cs : List Char) : Option (List Char) :=
  if pyLower ⟨cs.take lit.length⟩ = lit then some (cs.drop lit.length) else none

/-- `_parse_pivot`: `re.match(r'index=(\S+)\s+column=(\S+)\s+value=(\S+)', …)`
(prefix match, case-insensitive). -/
def parse_pivot (args : String) (line_no : Nat) : Except String Node :=
  let err : Except String Node := .error (mkLineErr line_no
    "'pivot' requires index=, column=, and value= parameters. Example: pivot index=country column=year value=revenue")
  let attempt : Option Node := do
    let r1 ← matchLit "index=" (pyStrip args).data
    let v1 := r1.takeWhile (fun c => ¬ pyIsSpace c)
    if v1 = [] then none else
    let r1b := r1.drop v1.length
    if r1b.takeWhile pyIsSpace = [] then none else
    let r2 ← matchLit "column=" (r1b.dropWhile pyIsSpace)
    let v2 := r2.takeWhile (fun c => ¬ pyIsSpace c)
    if v2 = [] then none else
    let r2b := r2.drop v2.length
    if r2b.takeWhile pyIsSpace = [] then none else
    let r3 ← matchLit "value=" (r2b.dropWhile pyIsSpace)
    let v3 := r3.takeWhile (fun c => ¬ pyIsSpace c)
    if v3 = [] then none else
    some (.pivotN ⟨v1⟩ ⟨v2⟩ ⟨v3⟩)
  match attempt with
  | some n => .ok n
  | none => err

/-- `_parse_agg(node_cls, verb)` for `sum` / `avg` / `min` / `max`. -/
def parse_agg (mk : String → Node) (verb : String)
    (args : String) (line_no : Nat) : Except String Node :=
  let col := pyStrip args
  if col = "" then
    .error (mkLineErr line_no ("'" ++ verb ++
      "' requires a column name. Example: " ++ verb ++ " salary"))
  else .ok (mk col)

/-- One spec of `_parse_agg_multi`. -/
def aggSpecItem (part : String) (line_no : Nat) : Except String (String × Option String) :=
  let tokens := pySplitWs part
  let verb := pyLower (tokens.headD "")
  if ¬ ["sum", "avg", "min", "max", "count"].contains verb then
    .error (mkLineErr line_no ("unknown agg verb '" ++ verb ++
      "'. Supported: avg, count, max, min, sum"))
  else if verb = "count" then .ok ("count", none)
  else if tokens.length = 2 then .ok (verb, some (tokens.getD 1 ""))
  else .error (mkLineErr line_no ("'" ++ verb ++
    "' requires a column name in agg. Example: " ++ verb ++ " salary"))

/-- `_parse_agg_multi`. -/
def parse_agg_multi (args : String) (line_no : Nat) : Except String Node := do
  match commaList args with
  | [] => .error (mkLineErr line_no
      "'agg' requires at least one spec. Example: agg sum salary, avg age, count")
  | parts => do
    let specs ← parseEach (fun p => aggSpecItem p line_no) parts
    .ok (.multiAggN specs)

/-- `_parse_join`: `^["\']([^"\']+)["\'](.*)$` then `on KEY [how]`. -/
def parse_join (args : String) (line_no : Nat) : Except String Node :=
  let cs := (pyStrip args).data
  match cs with
  | q1 :: rest =>
    let path := rest.takeWhile (fun c => ¬ quoteChars.contains c)
    if ¬ quoteChars.contains q1 ∨ path = [] then
      .error (mkLineErr line_no
        "'join' requires a quoted file path. Example: join \"data/other.csv\" on id")
    else
      match rest.drop path.length with
      | q2 :: rest2 =>
        if ¬ quoteChars.contains q2 then
          .error (mkLineErr line_no
            "'join' requires a quoted file path. Example: join \"data/other.csv\" on id")
        else
          let remainder := pyStrip ⟨rest2⟩
          if ¬ pyStartswith (pyLower remainder) "on" then
            .error (mkLineErr line_no
              "'join' requires 'on <column>'. Example: join \"data/other.csv\" on id")
          else
            let after_on := pyStrip (pyDropFirst 2 remainder)
            match pySplitWs after_on with
            | [] => .error (mkLineErr line_no
                "'join … on' requires a key column name.")
            | key :: more =>
              let how := if more ≠ [] then pyLower (more.headD "") else "inner"
              if ¬ ["inner", "left", "right", "outer"].contains how then
                .error (mkLineErr line_no
                  ("join type must be one of: inner, left, right, outer. Got '" ++ how ++
                   "'. Example: join \"data/other.csv\" on id left"))
              else .ok (.joinN ⟨path⟩ key how)
      | [] => .error (mkLineErr line_no
          "'join' requires a quoted file path. Example: join \"data/other.csv\" on id")
  | [] => .error (mkLineErr line_no
      "'join' requires a quoted file path. Example: join \"data/other.csv\" on id")

/-- `_parse_merge`. -/
def parse_merge (args : String) (line_no : Nat) : Except String Node :=
  let path := strip_quotes (pyStrip args)
  if path = "" then .error (mkLineErr line_no
    "'merge' requires a file path. Example: merge \"data/extra.csv\"")
  else .ok (.mergeN path)

/-- `_parse_foreach`. -/
def parse_foreach (args : String) (line_no : Nat) : Except String Node :=
  let pat := strip_quotes (pyStrip args)
  if pat = "" then .error (mkLineErr line_no
    "'foreach' requires a glob pattern. Example: foreach \"data/monthly/*.csv\"")
  else .ok (.foreachN pat)

/-- `_parse_include`. -/
def parse_include (args : String) (line_no : Nat) : Except String Node :=
  let path := strip_quotes (pyStrip args)
  if path = "" then .error (mkLineErr line_no
    "'include' requires a file path. Example: include \"pipelines/shared/clean.ppl\"")
  else .ok (.includeN path)

/-- `_parse_head`. -/
def parse_head (args : String) (line_no : Nat) : Except String Node :=
  match pyInt (pyStrip args) with
  | some n => if n < 0 then
      .error (mkLineErr line_no
        "'head' requires a positive integer. Example: head 10")
    else .ok (.headN n.toNat)
  | none => .error (mkLineErr line_no
      "'head' requires a positive integer. Example: head 10")

/-- `_parse_log`. -/
def parse_log (args : String) (line_no : Nat) : Except String Node :=
  if pyStrip args = "" then
    .error (mkLineErr line_no
      "'log' requires a message. Example: log \"Processing complete\"")
  else .ok (.logN (pyStrip args))

/-- `_parse_assert`. -/
def parse_assert (args : String) (line_no : Nat) : Except String Node := do
  let (c, o, v) ← parse_condition_tuple (pyStrip args) line_no "assert"
  .ok (.assertN c o v)

/-- `_parse_fill` (`args.strip().split(maxsplit=1)`). -/
def parse_fill (args : String) (line_no : Nat) : Except String Node :=
  let t := (pyStrip args).data
  let tok := t.takeWhile (fun c => ¬ pyIsSpace c)
  let rest := (t.drop tok.length).dropWhile pyIsSpace
  if tok = [] ∨ rest = [] then
    .error (mkLineErr line_no
      "'fill' requires a column and a strategy or value. Example: fill age mean  |  fill country \"Unknown\"")
  else .ok (.fillN ⟨tok⟩ ⟨rest⟩)

/-- `_parse_set`. -/
def parse_set (args : String) (line_no : Nat) : Except String Node :=
  if ¬ args.data.contains '=' then
    .error (mkLineErr line_no
      "'set' requires '='. Example: set threshold = 50000")
  else
    match findSubstr ['='] args.data with
    | none => .error (mkLineErr line_no
        "'set' requires '='. Example: set threshold = 50000")
    | some i =>
      let name := pyStrip ⟨args.data.take i⟩
      let value := pyStrip ⟨args.data.drop (i + 1)⟩
      if name = "" ∨ value = "" then
        .error (mkLineErr line_no
          "'set' requires a name and a value. Example: set threshold = 50000")
      else .ok (.setN name value)

/-- `_parse_env`. -/
def parse_env (args : String) (line_no : Nat) : Except String Node :=
  let v := pyStrip args
  if v = "" then .error (mkLineErr line_no
    "'env' requires an environment variable name. Example: env DATA_PATH")
  else .ok (.envN v)

/-- `_parse_source`: `^["\']([^"\']+)["\']\s*(?:chunk\s+(\d+))?\s*$`
(case-insensitive) plus the positivity check on the chunk size. -/
def parse_source (args : String) (line_no : Nat) : Except String Node :=
  let err : Except String Node := .error (mkLineErr line_no
    ("'source' requires a file path. Example: source \"data/people.csv\"\n" ++
     "         source \"data/big.csv\" chunk 100000"))
  let cs := (pyStrip args).data
  match cs with
  | q1 :: rest =>
    let path := rest.takeWhile (fun c => ¬ quoteChars.contains c)
    if ¬ quoteChars.contains q1 ∨ path = [] then err else
    match rest.drop path.length with
    | q2 :: rest2 =>
      if ¬ quoteChars.contains q2 then err else
      let r3 := rest2.dropWhile pyIsSpace
      if r3 = [] then .ok (.sourceN ⟨path⟩ none) else
      if pyLower ⟨r3.take 5⟩ = "chunk" then
        let r4 := r3.drop 5
        if r4.takeWhile pyIsSpace = [] then err else
        let digits := (r4.dropWhile pyIsSpace).takeWhile Char.isDigit
        let r5 := ((r4.dropWhile pyIsSpace).drop digits.length).dropWhile pyIsSpace
        if digits = [] ∨ r5 ≠ [] then err else
        let k := digitsToNat digits
        if k = 0 then
          .error (mkLineErr line_no
            "chunk size must be a positive integer. Example: source \"data/big.csv\" chunk 100000")
        else .ok (.sourceN ⟨path⟩ (some k))
      else err
    | [] => err
  | [] => err

/-- The keys of `_PARSERS`, in the dict-literal order of the source. -/
def parserKeys : List String :=
  ["source", "filter", "where", "select", "group", "count", "save", "sort",
   "rename", "add", "drop", "limit", "sample", "trim", "uppercase", "lowercase",
   "cast", "replace", "pivot", "sum", "avg", "min", "max", "agg", "join",
   "merge", "foreach", "include", "head", "log", "assert", "fill", "set", "env"]

/-- The keys of `_NO_ARG_NODES`. -/
def noArgKeys : List String := ["distinct", "print", "schema", "inspect"]

/-- The `_PARSERS` lookup. -/
def parserFor (kw : String) : Option (String → Nat → Except String Node) :=
  if kw = "source" then some parse_source
  else if kw = "filter" ∨ kw = "where" then some parse_filter
  else if kw = "select" then some parse_select
  else if kw = "group" then some parse_group_by
  else if kw = "count" then some parse_count
  else if kw = "save" then some parse_save
  else if kw = "sort" then some parse_sort
  else if kw = "rename" then some parse_rename
  else if kw = "add" then some parse_add
  else if kw = "drop" then some parse_drop
  else if kw = "limit" then some parse_limit
  else if kw = "sample" then some parse_sample
  else if kw = "trim" then some (parse_string_transform .trimN "trim")
  else if kw = "uppercase" then some (parse_string_transform .uppercaseN "uppercase")
  else if kw = "lowercase" then some (parse_string_transform .lowercaseN "lowercase")
  else if kw = "cast" then some parse_cast
  else if kw = "replace" then some parse_replace
  else if kw = "pivot" then some parse_pivot
  else if kw = "sum" then some (parse_agg .sumN "sum")
  else if kw = "avg" then some (parse_agg .avgN "avg")
  else if kw = "min" then some (parse_agg .minN "min")
  else if kw = "max" then some (parse_agg .maxN "max")
  else if kw = "agg" then some parse_agg_multi
  else if kw = "join" then some parse_join
  else if kw = "merge" then some parse_merge
  else if kw = "foreach" then some parse_foreach
  else if kw = "include" then some parse_include
  else if kw = "head" then some parse_head
  else if kw = "log" then some parse_log
  else if kw = "assert" then some parse_assert
  else if kw = "fill" then some parse_fill
  else if kw = "set" then some parse_set
  else if kw = "env" then some parse_env
  else none

/-- The `_NO_ARG_NODES` lookup. -/
def noArgFor (kw : String) : Option Node :=
  if kw = "distinct" then some .distinctN
  else if kw = "print" then some .printN
  else if kw = "schema" then some .schemaN
  else if kw = "inspect" then some .inspectN
  else none

/-- `sorted(list(_PARSERS) + list(_NO_ARG_NODES) + ["try"])`. -/
def allCommandsSorted : List String :=
  stableSort (fun a b => ¬ b < a) (parserKeys ++ noArgKeys ++ ["try"])

/-- The `unknown command` syntax error of `parse_lines`. -/
def unknownCommandErr (line_no : Nat) (keyword : String) : String :=
  mkLineErr line_no ("unknown command '" ++ keyword ++
    "'. Supported commands: " ++ String.intercalate ", " allCommandsSorted)

/-- First whitespace token of a stripped line, lowered (`parse_lines` block
scanning: `lines[i].strip().split()[0].lower() if lines[i].strip() else ""`). -/
def firstToken (l : String) : String :=
  match pySplitWs (pyStrip l) with
  | [] => ""
  | t :: _ => pyLower t

/-- The forward scan of a `try` block: accumulate body lines, tracking the
nesting depth; stop at the `on_error` that brings the depth to zero.
Returns `(body, on_error line, remaining lines)`. -/
def splitTryBlock (depth : Nat) : List String → Option (List String × String × List String)
  | [] => none
  | l :: rest =>
    let token := firstToken l
    if token = "try" then
      (splitTryBlock (depth + 1) rest).map (fun (b, e, r) => (l :: b, e, r))
    else if token = "on_error" then
      if depth - 1 = 0 then some ([], l, rest)
      else (splitTryBlock (depth - 1) rest).map (fun (b, e, r) => (l :: b, e, r))
    else
      (splitTryBlock depth rest).map (fun (b, e, r) => (l :: b, e, r))

/-- The scan consumes the body and the `on_error` line from its input. -/
theorem splitTryBlock_length :
    ∀ (ls : List String) (depth : Nat) (b : List String) (e : String) (r : List String),
    splitTryBlock depth ls = some (b, e, r) → b.length + 1 + r.length = ls.length := by
  intro ls
  induction ls with
  | nil => intro depth b e r h; simp [splitTryBlock] at h
  | cons l rest ih =>
    intro depth b e r h
    simp only [splitTryBlock] at h
    split at h
    · cases hrec : splitTryBlock (depth + 1) rest with
      | none => rw [hrec] at h; simp at h
      | some v =>
        obtain ⟨b', e', r'⟩ := v
        rw [hrec] at h
        simp only [Option.map_some', Option.some.injEq, Prod.mk.injEq] at h
        obtain ⟨h1, h2, h3⟩ := h
        subst h1 h2 h3
        have := ih _ b' _ _ hrec
        simp only [List.length_cons]
        omega
    · split at h
      · split at h
        · simp only [Option.some.injEq, Prod.mk.injEq] at h
          obtain ⟨h1, h2, h3⟩ := h
          subst h1 h2 h3
          simp only [List.length_nil, List.length_cons]
          omega
        · cases hrec : splitTryBlock (depth - 1) rest with
          | none => rw [hrec] at h; simp at h
          | some v =>
            obtain ⟨b', e', r'⟩ := v
            rw [hrec] at h
            simp only [Option.map_some', Option.some.injEq, Prod.mk.injEq] at h
            obtain ⟨h1, h2, h3⟩ := h
            subst h1 h2 h3
            have := ih _ b' _ _ hrec
            simp only [List.length_cons]
            omega
      · cases hrec : splitTryBlock depth rest with
        | none => rw [hrec] at h; simp at h
        | some v =>
          obtain ⟨b', e', r'⟩ := v
          rw [hrec] at h
          simp only [Option.map_some', Option.some.injEq, Prod.mk.injEq] at h
          obtain ⟨h1, h2, h3⟩ := h
          subst h1 h2 h3
          have := ih _ b' _ _ hrec
          simp only [List.length_cons]
          omega

/-- `parse_lines` with an offset for the 1-indexed line numbers: the head of
`lines` is reported as line `offset + 1`.  Note that the source re-parses a
`try` body (and an `on_error` handler command) through a fresh recursive
`parse_lines(...)` call, which *restarts* the numbering at 1 — hence the
recursive calls below pass offset `0`.

The first argument is structural-recursion fuel.  Every recursive call is on
a strictly shorter line list (see `splitTryBlock_length`), so fuel equal to
the length of the list — as `parse_lines` supplies — always suffices; the
fuel-exhaustion branch is unreachable from `parse_lines`. -/
def parseLinesFrom : Nat → Nat → List String → Except String (List Node)
  | _, _, [] => .ok []
  | 0, _, _ :: _ => .ok []
  | fuel + 1, offset, line :: rest =>
    let line_no := offset + 1
    let (keyword, args) := partitionSpace line
    let kw := pyLower keyword
    if kw = "try" then
      match splitTryBlock 1 rest with
      | none => .error (mkLineErr line_no
          "'try' block has no 'on_error' handler. Example:\n  try\n    cast age int\n  on_error skip")
      | some (body, onErrLine, after) => do
        let errAction := pyStrip (partitionSpace onErrLine).2
        let bodyNodes ← parseLinesFrom fuel 0 body
        let al := pyLower errAction
        let onErrNodes ←
          if al = "skip" ∨ pyStartswith al "log " then pure []
          else if errAction ≠ "" then parseLinesFrom fuel 0 [errAction]
          else .error (mkLineErr line_no
            "'on_error' requires an action. Use 'skip', 'log \"message\"', or any valid command.")
        let restNodes ← parseLinesFrom fuel (offset + 1 + body.length + 1) after
        pure (Node.tryN bodyNodes onErrNodes errAction :: restNodes)
    else
      match noArgFor kw with
      | some n => (parseLinesFrom fuel (offset + 1) rest).map (n :: ·)
      | none =>
        match parserFor kw with
        | some p => do
          let n ← p args line_no
          let ns ← parseLinesFrom fuel (offset + 1) rest
          pure (n :: ns)
        | none => .error (unknownCommandErr line_no keyword)

/-- `parse_lines` (the public entry point). -/
def parse_lines (lines : List String) : Except String (List Node) :=
  parseLinesFrom lines.length 0 lines

/-! ## Node execution (`ASTNode.execute` dispatch, `TryNode`, `IncludeNode`)

`IncludeNode.execute` re-enters the executor on a freshly parsed pipeline,
which Python bounds only by its recursion limit; the `fuel` parameter models
that limit (exhaustion is a `RecursionError`, a `RuntimeError` subclass). -/

/-- The error raised when the modelled recursion limit is exhausted. -/
def recursionLimitError : PyError :=
  ⟨.runtimeError, "maximum recursion depth exceeded"⟩

/-- `read_ppl_file` as used by `IncludeNode.execute` (the file's cleaned
lines come from `Env.ppl`; the `.ppl`-extension check of `file_reader.py`
applies). -/
def readPplLines (env : Env) (path : String) : Except PyError (List String) :=
  if ¬ pyEndswith path ".ppl" then
    .error ⟨.valueError, "Expected a .ppl file, got: '" ++ path ++ "'"⟩
  else match env.ppl path with
    | none => .error ⟨.fileNotFoundError, "Pipeline file not found: '" ++ path ++ "'"⟩
    | some ls => .ok ls

/-- One step of every executor loop: run each node in order with `step`,
stop at the first raised exception after transforming it with `onErr`.
`run_pipeline` and the two phases of `_run_chunked_pipeline` use the
recognised-class wrapping, `TryNode.execute` uses the identity, and
`IncludeNode.execute` re-raises as `RuntimeError`. -/
def execListWith (onErr : Node → PyError → PyError) (step : Node → Ctx → ExecRes) :
    List Node → Ctx → ExecRes
  | [], ctx => ⟨ctx, [], none⟩
  | n :: rest, ctx =>
    let r := step n ctx
    match r.err with
    | some e => ⟨r.ctx, r.out, some (onErr n e)⟩
    | none =>
      let r2 := execListWith onErr step rest r.ctx
      ⟨r2.ctx, r.out ++ r2.out, r2.err⟩

/-- The `except`-free loop of `TryNode.execute` (errors pass unchanged). -/
def tryBodyWrap : Node → PyError → PyError := fun _ e => e

/-- The per-node wrap of `IncludeNode.execute`:
`raise RuntimeError(f"include '{path}': [{node_name}] {exc}")`. -/
def includeWrap (path : String) : Node → PyError → PyError := fun n e =>
  ⟨.runtimeError, "include '" ++ path ++ "': [" ++ n.pyName ++ "] " ++ strExc e⟩

/-- The per-node wrap of the `run_pipeline` / chunk loops: recognised
classes are re-raised as the same class with `[NodeName] ` prefixed. -/
def pipelineWrap : Node → PyError → PyError := fun n e =>
  if recognizedClass e.cls then wrapError n.pyName e else e

/-- `node.execute(context)`.  Structurally recursive on `fuel`, which is
consumed one unit per *nesting* level (`try` bodies and `include`d
sub-pipelines), exactly where CPython consumes stack frames; theorems hold
for all fuel or supply a sufficient amount. -/
def execNode (env : Env) : Nat → Node → Ctx → ExecRes
  | 0, _, ctx => .fail ctx recursionLimitError
  | fuel + 1, n, ctx =>
    match n with
    | .sourceN p k => execSource env p k ctx
    | .foreachN pat => execForeach env pat ctx
    | .filterN c o v => execFilter ctx c o v
    | .compoundFilterN cs lg => execCompoundFilter ctx cs lg
    | .selectN cs => execSelect ctx cs
    | .dropN cs => execDrop ctx cs
    | .limitN k => execLimit ctx k
    | .distinctN => execDistinct ctx
    | .sampleN k p => execSample env ctx k p
    | .sortN cs asc => execSort ctx cs asc
    | .renameN a b => execRename ctx a b
    | .addN c e => execAdd env ctx c e
    | .addIfN c cc co cv tv fv => execAddIf ctx c cc co cv tv fv
    | .trimN c => execStrTransform "trim" pyStrip ctx c
    | .uppercaseN c => execStrTransform "uppercase" strUpper ctx c
    | .lowercaseN c => execStrTransform "lowercase" strLower ctx c
    | .castN c ty => execCast ctx c ty
    | .replaceN c o nn => execReplace ctx c o nn
    | .pivotN i c v => execPivot ctx i c v
    | .groupByN cs => execGroupBy ctx cs
    | .countN => execCount ctx
    | .countIfN c o v => execCountIf ctx c o v
    | .sumN c => execAggSingle "sum" "sum" ctx c
    | .avgN c => execAggSingle "avg" "mean" ctx c
    | .minN c => execAggSingle "min" "min" ctx c
    | .maxN c => execAggSingle "max" "max" ctx c
    | .multiAggN specs => execMultiAgg ctx specs
    | .joinN p k how => execJoin env ctx p k how
    | .mergeN p => execMerge env ctx p
    | .saveN p => execSave env ctx p
    | .printN => execPrint ctx
    | .schemaN => execSchema ctx
    | .inspectN => execInspect ctx
    | .headN k => execHead ctx k
    | .logN m => execLog ctx m
    | .assertN c o v => execAssert ctx c o v
    | .fillN c s => execFill ctx c s
    | .setN nm v => execSet ctx nm v
    | .envN v => execEnv env ctx v
    | .tryN body onErrNodes action =>
      -- TryNode.execute: run the body; on the first exception apply the handler
      let r := execListWith tryBodyWrap (execNode env fuel) body ctx
      match r.err with
      | none => r
      | some exc =>
        let actionLower := pyLower (pyStrip action)
        if actionLower = "skip" then ⟨r.ctx, r.out, none⟩
        else if pyStartswith actionLower "log " then
          -- msg = _substitute_vars(self.error_action[4:].strip().strip("\"'"), context)
          match substitute_vars (pyStripChars quoteChars (pyStrip (pyDropFirst 4 action))) r.ctx with
          | .ok m => ⟨r.ctx, r.out ++ ["[TRY] " ++ m ++ ": " ++ strExc exc], none⟩
          | .error e2 => ⟨r.ctx, r.out, some e2⟩
        else
          let h := execListWith tryBodyWrap (execNode env fuel) onErrNodes r.ctx
          ⟨h.ctx, r.out ++ h.out, h.err⟩
    | .includeN p =>
      -- IncludeNode.execute
      match (do
        let path ← substitute_vars p ctx
        match check_path_sandbox env.canon path ctx with
        | some e => throw e
        | none =>
        if ¬ env.pathExists path then
          throw ⟨.fileNotFoundError, "include: file not found: '" ++ path ++ "'"⟩ else
        let ls ← readPplLines env path
        match parse_lines ls with
        | .error m => throw ⟨.syntaxError, m⟩
        | .ok ns => pure (path, ns) : Except PyError (String × List Node)) with
      | .error e => .fail ctx e
      | .ok (path, ns) => execListWith (includeWrap path) (execNode env fuel) ns ctx

/-- The body loop of `TryNode.execute` as a named runner. -/
def execNodes (env : Env) (fuel : Nat) (ns : List Node) (ctx : Ctx) : ExecRes :=
  execListWith tryBodyWrap (execNode env fuel) ns ctx

/-! ## The executor entry points (`executor.py`) -/

/-- The body of the `run_pipeline` loop (also the per-chunk and post-phase
loops of `_run_chunked_pipeline`): execute each node, re-raising any
recognised error class (`AssertionError`, `FileNotFoundError`, `KeyError`,
`RuntimeError`, `ValueError`) as the same class with `[NodeName] ` prefixed
to the message; other exceptions propagate untouched. -/
def runNodesWrapped (env : Env) (fuel : Nat) (ns : List Node) (ctx : Ctx) : ExecRes :=
  execListWith pipelineWrap (execNode env fuel) ns ctx

/-- `pd.read_csv(path, chunksize=k)`: the rows in consecutive chunks of at
most `k` (fuel-structural; fuel bounds the number of chunks, so the row
count always suffices). -/
def chunksOfGo (k : Nat) : Nat → List (List Val) → List (List (List Val))
  | _, [] => []
  | 0, _ :: _ => []
  | fuel + 1, l =>
    if k = 0 then [] else l.take k :: chunksOfGo k fuel (l.drop k)

/-- Chunking entry point. -/
def chunksOf (k : Nat) (l : List (List Val)) : List (List (List Val)) :=
  chunksOfGo k l.length l

/-- The chunk loop of `_run_chunked_pipeline`: run the chunk-safe phase on a
per-chunk context (`df` = the chunk; shared copies of variables and
sandbox), keep the non-empty results.  Returns the kept tables, printed
output, and the first error. -/
def runChunks (env : Env) (fuel : Nat) (chunkPhase : List Node)
    (baseVars : List (String × String)) (sandbox : Option String) (cols : List String) :
    List (List (List Val)) → List Table × List String × Option PyError
  | [] => ([], [], none)
  | chunk :: rest =>
    let cctx : Ctx := { df := some ⟨cols, chunk⟩, vars := baseVars, sandbox_dir := sandbox }
    let r := runNodesWrapped env fuel chunkPhase cctx
    match r.err with
    | some e => ([], r.out, some e)
    | none =>
      let keep := match r.ctx.df with
        | some t => if t.cols ≠ [] ∧ t.rows ≠ [] then [t] else []  -- not df.empty
        | none => []
      let (ts, out2, err2) := runChunks env fuel chunkPhase baseVars sandbox cols rest
      (keep ++ ts, r.out ++ out2, err2)

/-- `_run_chunked_pipeline`. -/
def run_chunked_pipeline (env : Env) (fuel : Nat) (srcPath : String) (chunkSize : Nat)
    (remaining : List Node) (ctx : Ctx) : List String × Except PyError (Option Table) :=
  match substitute_vars srcPath ctx with
  | .error e => ([], .error e)
  | .ok path =>
    match check_path_sandbox env.canon path ctx with
    | some e => ([], .error e)
    | none =>
      -- split into the per-chunk phase (leading chunk-safe nodes) and the
      -- post-concat phase (everything from the first non-chunk-safe node on)
      let chunkPhase := remaining.takeWhile isChunkSafe
      let postPhase := remaining.dropWhile isChunkSafe
      match env.fs path with
      | none => ([], .error ⟨.fileNotFoundError,
          "[Errno 2] No such file or directory: '" ++ path ++ "'"⟩)
      | some t =>
        let (ts, out1, err1) := runChunks env fuel chunkPhase ctx.vars ctx.sandbox_dir
          t.cols (chunksOf chunkSize t.rows)
        match err1 with
        | some e => (out1, .error e)
        | none =>
          let concatTbl : Table := match ts with
            | [] => ⟨[], []⟩                     -- pd.DataFrame()
            | t0 :: _ => ⟨t0.cols, ts.flatMap Table.rows⟩
          let ctx2 := {ctx with df := some concatTbl, grouped := none}
          let r := runNodesWrapped env fuel postPhase ctx2
          match r.err with
          | some e => (out1 ++ r.out, .error e)
          | none => (out1 ++ r.out, .ok r.ctx.df)

/-- Non-chunked branch of `run_pipeline`: run every node against a fresh
context and return `context.df`. -/
def runPlain (env : Env) (fuel : Nat) (nodes : List Node) :
    List String × Except PyError (Option Table) :=
  let r := runNodesWrapped env fuel nodes Ctx.initial
  (r.out, match r.err with
    | some e => .error e
    | none => .ok r.ctx.df)

/-- Does `getattr(nodes[0], "chunk_size", None)` evaluate truthy? -/
def chunkStart : List Node → Bool
  | Node.sourceN _ (some k) :: _ => k ≠ 0
  | _ => false

/-- `run_pipeline`. -/
def run_pipeline (env : Env) (fuel : Nat) (nodes : List Node) :
    List String × Except PyError (Option Table) :=
  match nodes with
  | Node.sourceN p (some k) :: rest =>
    if k ≠ 0 then run_chunked_pipeline env fuel p k rest Ctx.initial
    else runPlain env fuel nodes
  | _ => runPlain env fuel nodes

/-! ## Line-prefix lemmas for the parser (claim C9) -/

/-- A message of the form `Line N: …`. -/
def isLineErr (n : Nat) (m : String) : Prop := ∃ r, m = mkLineErr n r

/-- All error outcomes of a parser computation carry the prefix for line `n`. -/
def errsAreLine (n : Nat) (e : Except String α) : Prop :=
  ∀ m, e = .error m → isLineErr n m

theorem errsAreLine_ok (n : Nat) (a : α) : errsAreLine n (Except.ok a) := by
  intro m h; cases h

theorem errsAreLine_err {α : Type} (n : Nat) (r : String) :
    errsAreLine n (Except.error (mkLineErr n r) : Except String α) := by
  intro m h; cases h; exact ⟨r, rfl⟩

theorem errsAreLine_bind {n : Nat} {e : Except String α} {f : α → Except String β}
    (he : errsAreLine n e) (hf : ∀ a, errsAreLine n (f a)) :
    errsAreLine n (e >>= f) := by
  intro m h
  cases e with
  | error me =>
    have : Except.error (ε := String) me = .error m := h
    cases this
    exact he m rfl
  | ok a => exact hf a m h

theorem condTupleGo_line (cond : String) (n : Nat) (cx : String) :
    ∀ ops, errsAreLine n (condTupleGo cond n cx ops) := by
  intro ops
  induction ops with
  | nil => intro m h; cases h; exact ⟨_, rfl⟩
  | cons op rest ih =>
    intro m h
    simp only [condTupleGo] at h
    split at h
    · exact ih m h
    · split at h
      · cases h
      · exact ih m h

theorem parse_condition_tuple_line (c : String) (n : Nat) (cx : String) :
    errsAreLine n (parse_condition_tuple c n cx) :=
  condTupleGo_line _ n cx _

theorem parseEach_line {f : α → Except String β}
    (hf : ∀ x, errsAreLine n (f x)) : ∀ l, errsAreLine n (parseEach f l) := by
  intro l
  induction l with
  | nil => exact errsAreLine_ok n _
  | cons x xs ih =>
    simp only [parseEach]
    exact errsAreLine_bind (hf x) (fun _ => errsAreLine_bind ih (fun _ => errsAreLine_ok n _))

set_option maxHeartbeats 1000000 in
theorem parse_filter_line (args : String) (n : Nat) : errsAreLine n (parse_filter args n) := by
  unfold parse_filter
  dsimp only
  split
  · exact errsAreLine_bind (parse_condition_tuple_line _ n _) (fun _ => errsAreLine_ok n _)
  · exact errsAreLine_bind (parseEach_line (fun p => parse_condition_tuple_line _ n _) _)
      (fun _ => errsAreLine_ok n _)

theorem parse_source_line (args : String) (n : Nat) : errsAreLine n (parse_source args n) := by
  unfold parse_source
  dsimp only
  repeat' split
  all_goals first
    | exact errsAreLine_err n _
    | exact errsAreLine_ok n _

theorem parse_select_line (args : String) (n : Nat) : errsAreLine n (parse_select args n) := by
  unfold parse_select
  repeat' split
  all_goals first
    | exact errsAreLine_err n _
    | exact errsAreLine_ok n _

theorem parse_group_by_line (args : String) (n : Nat) : errsAreLine n (parse_group_by args n) := by
  unfold parse_group_by
  dsimp only
  repeat' split
  all_goals first
    | exact errsAreLine_err n _
    | exact errsAreLine_ok n _

theorem parse_count_line (args : String) (n : Nat) : errsAreLine n (parse_count args n) := by
  unfold parse_count
  dsimp only
  split
  · exact errsAreLine_ok n _
  · split
    · exact errsAreLine_bind (parse_condition_tuple_line _ n _) (fun _ => errsAreLine_ok n _)
    · exact errsAreLine_err n _

theorem parse_save_line (args : String) (n : Nat) : errsAreLine n (parse_save args n) := by
  unfold parse_save
  dsimp only
  repeat' split
  all_goals first
    | exact errsAreLine_err n _
    | exact errsAreLine_ok n _

theorem sortItem_line (p : String) (n : Nat) : errsAreLine n (sortItem p n) := by
  unfold sortItem
  dsimp only
  repeat' split
  all_goals first
    | exact errsAreLine_err n _
    | exact errsAreLine_ok n _

theorem parse_sort_line (args : String) (n : Nat) : errsAreLine n (parse_sort args n) := by
  unfold parse_sort
  dsimp only
  split
  · exact errsAreLine_err n _
  · split
    · exact errsAreLine_err n _
    · exact errsAreLine_bind (parseEach_line (fun p => sortItem_line p n) _)
        (fun _ => errsAreLine_ok n _)

theorem parse_rename_line (args : String) (n : Nat) : errsAreLine n (parse_rename args n) := by
  unfold parse_rename
  repeat' split
  all_goals first
    | exact errsAreLine_err n _
    | exact errsAreLine_ok n _

theorem parse_add_line (args : String) (n : Nat) : errsAreLine n (parse_add args n) := by
  unfold parse_add
  dsimp only
  split
  · exact errsAreLine_err n _
  · split
    · exact errsAreLine_err n _
    · split
      · exact errsAreLine_err n _
      · split
        · exact errsAreLine_bind (parse_condition_tuple_line _ n _)
            (fun _ => errsAreLine_ok n _)
        · exact errsAreLine_ok n _

theorem parse_drop_line (args : String) (n : Nat) : errsAreLine n (parse_drop args n) := by
  unfold parse_drop
  repeat' split
  all_goals first
    | exact errsAreLine_err n _
    | exact errsAreLine_ok n _

theorem parse_limit_line (args : String) (n : Nat) : errsAreLine n (parse_limit args n) := by
  unfold parse_limit
  repeat' split
  all_goals first
    | exact errsAreLine_err n _
    | exact errsAreLine_ok n _

theorem parse_sample_line (args : String) (n : Nat) : errsAreLine n (parse_sample args n) := by
  unfold parse_sample
  dsimp only
  repeat' split
  all_goals first
    | exact errsAreLine_err n _
    | exact errsAreLine_ok n _

theorem parse_string_transform_line (mk : String → Node) (verb args : String) (n : Nat) :
    errsAreLine n (parse_string_transform mk verb args n) := by
  unfold parse_string_transform
  dsimp only
  repeat' split
  all_goals first
    | exact errsAreLine_err n _
    | exact errsAreLine_ok n _

theorem parse_cast_line (args : String) (n : Nat) : errsAreLine n (parse_cast args n) := by
  unfold parse_cast
  repeat' split
  all_goals first
    | exact errsAreLine_err n _
    | exact errsAreLine_ok n _

theorem parse_replace_line (args : String) (n : Nat) : errsAreLine n (parse_replace args n) := by
  unfold parse_replace
  dsimp only
  repeat' split
  all_goals first
    | exact errsAreLine_err n _
    | exact errsAreLine_ok n _

theorem parse_pivot_line (args : String) (n : Nat) : errsAreLine n (parse_pivot args n) := by
  unfold parse_pivot
  dsimp only
  repeat' split
  all_goals first
    | exact errsAreLine_err n _
    | exact errsAreLine_ok n _

theorem parse_agg_line (mk : String → Node) (verb args : String) (n : Nat) :
    errsAreLine n (parse_agg mk verb args n) := by
  unfold parse_agg
  dsimp only
  repeat' split
  all_goals first
    | exact errsAreLine_err n _
    | exact errsAreLine_ok n _

theorem aggSpecItem_line (p : String) (n : Nat) : errsAreLine n (aggSpecItem p n) := by
  unfold aggSpecItem
  dsimp only
  repeat' split
  all_goals first
    | exact errsAreLine_err n _
    | exact errsAreLine_ok n _

theorem parse_agg_multi_line (args : String) (n : Nat) : errsAreLine n (parse_agg_multi args n) := by
  unfold parse_agg_multi
  split
  · exact errsAreLine_err n _
  · exact errsAreLine_bind (parseEach_line (fun p => aggSpecItem_line p n) _)
      (fun _ => errsAreLine_ok n _)

theorem parse_join_line (args : String) (n : Nat) : errsAreLine n (parse_join args n) := by
  unfold parse_join
  dsimp only
  repeat' split
  all_goals first
    | exact errsAreLine_err n _
    | exact errsAreLine_ok n _

theorem parse_merge_line (args : String) (n : Nat) : errsAreLine n (parse_merge args n) := by
  unfold parse_merge
  dsimp only
  repeat' split
  all_goals first
    | exact errsAreLine_err n _
    | exact errsAreLine_ok n _

theorem parse_foreach_line (args : String) (n : Nat) : errsAreLine n (parse_foreach args n) := by
  unfold parse_foreach
  dsimp only
  repeat' split
  all_goals first
    | exact errsAreLine_err n _
    | exact errsAreLine_ok n _

theorem parse_include_line (args : String) (n : Nat) : errsAreLine n (parse_include args n) := by
  unfold parse_include
  dsimp only
  repeat' split
  all_goals first
    | exact errsAreLine_err n _
    | exact errsAreLine_ok n _

theorem parse_head_line (args : String) (n : Nat) : errsAreLine n (parse_head args n) := by
  unfold parse_head
  repeat' split
  all_goals first
    | exact errsAreLine_err n _
    | exact errsAreLine_ok n _

theorem parse_log_line (args : String) (n : Nat) : errsAreLine n (parse_log args n) := by
  unfold parse_log
  repeat' split
  all_goals first
    | exact errsAreLine_err n _
    | exact errsAreLine_ok n _

theorem parse_assert_line (args : String) (n : Nat) : errsAreLine n (parse_assert args n) := by
  unfold parse_assert
  exact errsAreLine_bind (parse_condition_tuple_line _ n _) (fun _ => errsAreLine_ok n _)

theorem parse_fill_line (args : String) (n : Nat) : errsAreLine n (parse_fill args n) := by
  unfold parse_fill
  dsimp only
  repeat' split
  all_goals first
    | exact errsAreLine_err n _
    | exact errsAreLine_ok n _

theorem parse_set_line (args : String) (n : Nat) : errsAreLine n (parse_set args n) := by
  unfold parse_set
  dsimp only
  repeat' split
  all_goals first
    | exact errsAreLine_err n _
    | exact errsAreLine_ok n _

theorem parse_env_line (args : String) (n : Nat) : errsAreLine n (parse_env args n) := by
  unfold parse_env
  dsimp only
  repeat' split
  all_goals first
    | exact errsAreLine_err n _
    | exact errsAreLine_ok n _

/-- Every dispatched command parser only raises `Line n:`-prefixed errors. -/
theorem parserFor_line (kw : String) (p : String → Nat → Except String Node)
    (hp : parserFor kw = some p) (args : String) (n : Nat) :
    errsAreLine n (p args n) := by
  unfold parserFor at hp
  by_cases h0 : kw = "source"
  case pos => rw [if_pos h0] at hp; cases hp; exact parse_source_line args n
  case neg =>
  rw [if_neg h0] at hp
  by_cases h1 : kw = "filter" ∨ kw = "where"
  case pos => rw [if_pos h1] at hp; cases hp; exact parse_filter_line args n
  case neg =>
  rw [if_neg h1] at hp
  by_cases h2 : kw = "select"
  case pos => rw [if_pos h2] at hp; cases hp; exact parse_select_line args n
  case neg =>
  rw [if_neg h2] at hp
  by_cases h3 : kw = "group"
  case pos => rw [if_pos h3] at hp; cases hp; exact parse_group_by_line args n
  case neg =>
  rw [if_neg h3] at hp
  by_cases h4 : kw = "count"
  case pos => rw [if_pos h4] at hp; cases hp; exact parse_count_line args n
  case neg =>
  rw [if_neg h4] at hp
  by_cases h5 : kw = "save"
  case pos => rw [if_pos h5] at hp; cases hp; exact parse_save_line args n
  case neg =>
  rw [if_neg h5] at hp
  by_cases h6 : kw = "sort"
  case pos => rw [if_pos h6] at hp; cases hp; exact parse_sort_line args n
  case neg =>
  rw [if_neg h6] at hp
  by_cases h7 : kw = "rename"
  case pos => rw [if_pos h7] at hp; cases hp; exact parse_rename_line args n
  case neg =>
  rw [if_neg h7] at hp
  by_cases h8 : kw = "add"
  case pos => rw [if_pos h8] at hp; cases hp; exact parse_add_line args n
  case neg =>
  rw [if_neg h8] at hp
  by_cases h9 : kw = "drop"
  case pos => rw [if_pos h9] at hp; cases hp; exact parse_drop_line args n
  case neg =>
  rw [if_neg h9] at hp
  by_cases h10 : kw = "limit"
  case pos => rw [if_pos h10] at hp; cases hp; exact parse_limit_line args n
  case neg =>
  rw [if_neg h10] at hp
  by_cases h11 : kw = "sample"
  case pos => rw [if_pos h11] at hp; cases hp; exact parse_sample_line args n
  case neg =>
  rw [if_neg h11] at hp
  by_cases h12 : kw = "trim"
  case pos => rw [if_pos h12] at hp; cases hp; exact parse_string_transform_line _ _ args n
  case neg =>
  rw [if_neg h12] at hp
  by_cases h13 : kw = "uppercase"
  case pos => rw [if_pos h13] at hp; cases hp; exact parse_string_transform_line _ _ args n
  case neg =>
  rw [if_neg h13] at hp
  by_cases h14 : kw = "lowercase"
  case pos => rw [if_pos h14] at hp; cases hp; exact parse_string_transform_line _ _ args n
  case neg =>
  rw [if_neg h14] at hp
  by_cases h15 : kw = "cast"
  case pos => rw [if_pos h15] at hp; cases hp; exact parse_cast_line args n
  case neg =>
  rw [if_neg h15] at hp
  by_cases h16 : kw = "replace"
  case pos => rw [if_pos h16] at hp; cases hp; exact parse_replace_line args n
  case neg =>
  rw [if_neg h16] at hp
  by_cases h17 : kw = "pivot"
  case pos => rw [if_pos h17] at hp; cases hp; exact parse_pivot_line args n
  case neg =>
  rw [if_neg h17] at hp
  by_cases h18 : kw = "sum"
  case pos => rw [if_pos h18] at hp; cases hp; exact parse_agg_line _ _ args n
  case neg =>
  rw [if_neg h18] at hp
  by_cases h19 : kw = "avg"
  case pos => rw [if_pos h19] at hp; cases hp; exact parse_agg_line _ _ args n
  case neg =>
  rw [if_neg h19] at hp
  by_cases h20 : kw = "min"
  case pos => rw [if_pos h20] at hp; cases hp; exact parse_agg_line _ _ args n
  case neg =>
  rw [if_neg h20] at hp
  by_cases h21 : kw = "max"
  case pos => rw [if_pos h21] at hp; cases hp; exact parse_agg_line _ _ args n
  case neg =>
  rw [if_neg h21] at hp
  by_cases h22 : kw = "agg"
  case pos => rw [if_pos h22] at hp; cases hp; exact parse_agg_multi_line args n
  case neg =>
  rw [if_neg h22] at hp
  by_cases h23 : kw = "join"
  case pos => rw [if_pos h23] at hp; cases hp; exact parse_join_line args n
  case neg =>
  rw [if_neg h23] at hp
  by_cases h24 : kw = "merge"
  case pos => rw [if_pos h24] at hp; cases hp; exact parse_merge_line args n
  case neg =>
  rw [if_neg h24] at hp
  by_cases h25 : kw = "foreach"
  case pos => rw [if_pos h25] at hp; cases hp; exact parse_foreach_line args n
  case neg =>
  rw [if_neg h25] at hp
  by_cases h26 : kw = "include"
  case pos => rw [if_pos h26] at hp; cases hp; exact parse_include_line args n
  case neg =>
  rw [if_neg h26] at hp
  by_cases h27 : kw = "head"
  case pos => rw [if_pos h27] at hp; cases hp; exact parse_head_line args n
  case neg =>
  rw [if_neg h27] at hp
  by_cases h28 : kw = "log"
  case pos => rw [if_pos h28] at hp; cases hp; exact parse_log_line args n
  case neg =>
  rw [if_neg h28] at hp
  by_cases h29 : kw = "assert"
  case pos => rw [if_pos h29] at hp; cases hp; exact parse_assert_line args n
  case neg =>
  rw [if_neg h29] at hp
  by_cases h30 : kw = "fill"
  case pos => rw [if_pos h30] at hp; cases hp; exact parse_fill_line args n
  case neg =>
  rw [if_neg h30] at hp
  by_cases h31 : kw = "set"
  case pos => rw [if_pos h31] at hp; cases hp; exact parse_set_line args n
  case neg =>
  rw [if_neg h31] at hp
  by_cases h32 : kw = "env"
  case pos => rw [if_pos h32] at hp; cases hp; exact parse_env_line args n
  case neg =>
  rw [if_neg h32] at hp
  exact Option.noConfusion hp

theorem except_error_of_bind {α β : Type} {e : Except String α} {f : α → Except String β}
    {m : String} (h : (e >>= f) = .error m) :
    e = .error m ∨ ∃ a, e = .ok a ∧ f a = .error m := by
  cases e with
  | error x =>
    left
    have : Except.error (ε := String) (α := β) x = .error m := h
    cases this
    rfl
  | ok a => right; exact ⟨a, rfl, h⟩

theorem except_error_of_map {α β : Type} {e : Except String α} {f : α → β}
    {m : String} (h : Except.map f e = .error m) : e = .error m := by
  cases e with
  | error x =>
    have : Except.error (ε := String) (α := β) x = .error m := h
    cases this
    rfl
  | ok a => cases h

theorem parseLinesFrom_line : ∀ (fuel : Nat) (lines : List String) (offset : Nat) (m : String),
    parseLinesFrom fuel offset lines = .error m →
    ∃ n r, 1 ≤ n ∧ m = mkLineErr n r := by
  intro fuel
  induction fuel with
  | zero =>
    intro lines offset m h
    cases lines <;> (rw [parseLinesFrom] at h; cases h)
  | succ L ih =>
    intro lines offset m h
    match lines with
    | [] => rw [parseLinesFrom] at h; cases h
    | line :: rest =>
      rw [parseLinesFrom] at h
      dsimp only at h
      split at h
      · -- try branch
        split at h
        · cases h; exact ⟨offset + 1, _, by omega, rfl⟩
        · rcases except_error_of_bind h with hb | ⟨bodyNodes, _, h2⟩
          · exact ih _ 0 m hb
          · split at h2
            · rcases except_error_of_bind h2 with ho | ⟨y, _, h3⟩
              · cases ho
              · rcases except_error_of_bind h3 with ha | ⟨z, _, h4⟩
                · exact ih _ _ m ha
                · cases h4
            · split at h2
              · rcases except_error_of_bind h2 with ho | ⟨y, _, h3⟩
                · exact ih _ 0 m ho
                · rcases except_error_of_bind h3 with ha | ⟨z, _, h4⟩
                  · exact ih _ _ m ha
                  · cases h4
              · rcases except_error_of_bind h2 with ho | ⟨y, hyok, h3⟩
                · cases ho; exact ⟨offset + 1, _, by omega, rfl⟩
                · cases hyok
      · -- standard commands
        split at h
        · exact ih rest (offset + 1) m (except_error_of_map h)
        · split at h
          · rename_i p heqp
            rcases except_error_of_bind h with hp | ⟨nd, _, h2⟩
            · obtain ⟨r, hr⟩ := parserFor_line _ p heqp _ (offset + 1) m hp
              exact ⟨offset + 1, r, by omega, hr⟩
            · rcases except_error_of_bind h2 with hr | ⟨ns, _, h3⟩
              · exact ih rest (offset + 1) m hr
              · cases h3
          · cases h
            exact ⟨offset + 1, _, by omega, rfl⟩

/-! ## Frame lemmas: no node helper writes `context.df`

`PipelineContext.df` is declared in `executor.py` but no `execute` method of
`ast_nodes.py` ever assigns it (they all write the dynamically created
attributes); these lemmas record that per helper and lift it through the
loops (claim C10). -/

theorem execSource_df (env : Env) (p : String) (k : Option Nat) (ctx : Ctx) :
    (execSource env p k ctx).ctx.df = ctx.df := by
  unfold execSource
  (repeat' split) <;> rfl

theorem execForeach_df (env : Env) (p : String) (ctx : Ctx) :
    (execForeach env p ctx).ctx.df = ctx.df := by
  unfold execForeach
  dsimp only
  (repeat' split) <;> rfl

theorem execFilter_df (ctx : Ctx) (c o v : String) :
    (execFilter ctx c o v).ctx.df = ctx.df := by
  unfold execFilter
  (repeat' split) <;> rfl

theorem execCompoundFilter_df (ctx : Ctx) (cs : List (String × String × String)) (lg : List String) :
    (execCompoundFilter ctx cs lg).ctx.df = ctx.df := by
  unfold execCompoundFilter
  (repeat' split) <;> rfl

theorem execSelect_df (ctx : Ctx) (cs : List String) :
    (execSelect ctx cs).ctx.df = ctx.df := by
  unfold execSelect
  (repeat' split) <;> rfl

theorem execDrop_df (ctx : Ctx) (cs : List String) :
    (execDrop ctx cs).ctx.df = ctx.df := by
  unfold execDrop
  (repeat' split) <;> rfl

theorem execLimit_df (ctx : Ctx) (k : Nat) :
    (execLimit ctx k).ctx.df = ctx.df := by
  unfold execLimit
  (repeat' split) <;> rfl

theorem execDistinct_df (ctx : Ctx) :
    (execDistinct ctx).ctx.df = ctx.df := by
  unfold execDistinct
  (repeat' split) <;> rfl

theorem execSample_df (env : Env) (ctx : Ctx) (k : Option Nat) (p : Option ℚ) :
    (execSample env ctx k p).ctx.df = ctx.df := by
  unfold execSample
  (repeat' split) <;> rfl

theorem execSort_df (ctx : Ctx) (cs : List String) (asc : List Bool) :
    (execSort ctx cs asc).ctx.df = ctx.df := by
  unfold execSort
  (repeat' split) <;> rfl

theorem execRename_df (ctx : Ctx) (a b : String) :
    (execRename ctx a b).ctx.df = ctx.df := by
  unfold execRename
  (repeat' split) <;> rfl

theorem execAdd_df (env : Env) (ctx : Ctx) (c e : String) :
    (execAdd env ctx c e).ctx.df = ctx.df := by
  unfold execAdd
  dsimp only
  (repeat' split) <;> rfl

theorem execAddIf_df (ctx : Ctx) (c cc co cv tv fv : String) :
    (execAddIf ctx c cc co cv tv fv).ctx.df = ctx.df := by
  unfold execAddIf
  (repeat' split) <;> rfl

theorem execStrTransform_df (verb : String) (f : String → String) (ctx : Ctx) (c : String) :
    (execStrTransform verb f ctx c).ctx.df = ctx.df := by
  unfold execStrTransform
  (repeat' split) <;> rfl

theorem execCast_df (ctx : Ctx) (c ty : String) :
    (execCast ctx c ty).ctx.df = ctx.df := by
  unfold execCast
  (repeat' split) <;> rfl

theorem execReplace_df (ctx : Ctx) (c o nn : String) :
    (execReplace ctx c o nn).ctx.df = ctx.df := by
  unfold execReplace
  (repeat' split) <;> rfl

theorem execPivot_df (ctx : Ctx) (i c v : String) :
    (execPivot ctx i c v).ctx.df = ctx.df := by
  unfold execPivot
  (repeat' split) <;> rfl

theorem execGroupBy_df (ctx : Ctx) (cs : List String) :
    (execGroupBy ctx cs).ctx.df = ctx.df := by
  unfold execGroupBy
  (repeat' split) <;> rfl

theorem execCount_df (ctx : Ctx) :
    (execCount ctx).ctx.df = ctx.df := by
  unfold execCount
  (repeat' split) <;> rfl

theorem execCountIf_df (ctx : Ctx) (c o v : String) :
    (execCountIf ctx c o v).ctx.df = ctx.df := by
  unfold execCountIf
  (repeat' split) <;> rfl

theorem execAggSingle_df (verb fn : String) (ctx : Ctx) (c : String) :
    (execAggSingle verb fn ctx c).ctx.df = ctx.df := by
  unfold execAggSingle
  (repeat' split) <;> rfl

theorem execMultiAgg_df (ctx : Ctx) (specs : List (String × Option String)) :
    (execMultiAgg ctx specs).ctx.df = ctx.df := by
  unfold execMultiAgg
  (repeat' split) <;> rfl

theorem execJoin_df (env : Env) (ctx : Ctx) (p k how : String) :
    (execJoin env ctx p k how).ctx.df = ctx.df := by
  unfold execJoin
  (repeat' split) <;> rfl

theorem execMerge_df (env : Env) (ctx : Ctx) (p : String) :
    (execMerge env ctx p).ctx.df = ctx.df := by
  unfold execMerge
  (repeat' split) <;> rfl

theorem execSave_df (env : Env) (ctx : Ctx) (p : String) :
    (execSave env ctx p).ctx.df = ctx.df := by
  unfold execSave
  (repeat' split) <;> rfl

theorem execPrint_df (ctx : Ctx) :
    (execPrint ctx).ctx.df = ctx.df := by
  unfold execPrint
  (repeat' split) <;> rfl

theorem execSchema_df (ctx : Ctx) :
    (execSchema ctx).ctx.df = ctx.df := by
  unfold execSchema
  (repeat' split) <;> rfl

theorem execInspect_df (ctx : Ctx) :
    (execInspect ctx).ctx.df = ctx.df := by
  unfold execInspect
  (repeat' split) <;> rfl

theorem execHead_df (ctx : Ctx) (k : Nat) :
    (execHead ctx k).ctx.df = ctx.df := by
  unfold execHead
  (repeat' split) <;> rfl

theorem execLog_df (ctx : Ctx) (m : String) :
    (execLog ctx m).ctx.df = ctx.df := by
  unfold execLog
  (repeat' split) <;> rfl

theorem execAssert_df (ctx : Ctx) (c o v : String) :
    (execAssert ctx c o v).ctx.df = ctx.df := by
  unfold execAssert
  (repeat' split) <;> rfl

theorem execFill_df (ctx : Ctx) (c s : String) :
    (execFill ctx c s).ctx.df = ctx.df := by
  unfold execFill
  (repeat' split) <;> rfl

theorem execSet_df (ctx : Ctx) (nm v : String) :
    (execSet ctx nm v).ctx.df = ctx.df := by
  unfold execSet
  (repeat' split) <;> rfl

theorem execEnv_df (env : Env) (ctx : Ctx) (v : String) :
    (execEnv env ctx v).ctx.df = ctx.df := by
  unfold execEnv
  (repeat' split) <;> rfl

theorem execListWith_df (wrap : Node → PyError → PyError) (step : Node → Ctx → ExecRes)
    (hstep : ∀ n ctx, (step n ctx).ctx.df = ctx.df) :
    ∀ (ns : List Node) (ctx : Ctx), (execListWith wrap step ns ctx).ctx.df = ctx.df := by
  intro ns
  induction ns with
  | nil => intro ctx; rfl
  | cons hd tl ih =>
    intro ctx
    unfold execListWith
    dsimp only
    split
    · exact hstep hd ctx
    · exact (ih _).trans (hstep hd ctx)

theorem execNode_df (env : Env) : ∀ (fuel : Nat) (n : Node) (ctx : Ctx),
    (execNode env fuel n ctx).ctx.df = ctx.df := by
  intro fuel
  induction fuel with
  | zero => intro n ctx; rfl
  | succ fuel ih =>
    intro n ctx
    cases n with
    | sourceN p k => exact execSource_df env p k ctx
    | foreachN p => exact execForeach_df env p ctx
    | filterN c o v => exact execFilter_df ctx c o v
    | compoundFilterN cs lg => exact execCompoundFilter_df ctx cs lg
    | selectN cs => exact execSelect_df ctx cs
    | dropN cs => exact execDrop_df ctx cs
    | limitN k => exact execLimit_df ctx k
    | distinctN => exact execDistinct_df ctx
    | sampleN k p => exact execSample_df env ctx k p
    | sortN cs asc => exact execSort_df ctx cs asc
    | renameN a b => exact execRename_df ctx a b
    | addN c e => exact execAdd_df env ctx c e
    | addIfN c cc co cv tv fv => exact execAddIf_df ctx c cc co cv tv fv
    | trimN c => exact execStrTransform_df "trim" pyStrip ctx c
    | uppercaseN c => exact execStrTransform_df "uppercase" strUpper ctx c
    | lowercaseN c => exact execStrTransform_df "lowercase" strLower ctx c
    | castN c ty => exact execCast_df ctx c ty
    | replaceN c o nn => exact execReplace_df ctx c o nn
    | pivotN i c v => exact execPivot_df ctx i c v
    | groupByN cs => exact execGroupBy_df ctx cs
    | countN => exact execCount_df ctx
    | countIfN c o v => exact execCountIf_df ctx c o v
    | sumN c => exact execAggSingle_df "sum" "sum" ctx c
    | avgN c => exact execAggSingle_df "avg" "mean" ctx c
    | minN c => exact execAggSingle_df "min" "min" ctx c
    | maxN c => exact execAggSingle_df "max" "max" ctx c
    | multiAggN specs => exact execMultiAgg_df ctx specs
    | joinN p k how => exact execJoin_df env ctx p k how
    | mergeN p => exact execMerge_df env ctx p
    | saveN p => exact execSave_df env ctx p
    | printN => exact execPrint_df ctx
    | schemaN => exact execSchema_df ctx
    | inspectN => exact execInspect_df ctx
    | headN k => exact execHead_df ctx k
    | logN m => exact execLog_df ctx m
    | assertN c o v => exact execAssert_df ctx c o v
    | fillN c s => exact execFill_df ctx c s
    | setN nm v => exact execSet_df ctx nm v
    | envN v => exact execEnv_df env ctx v
    | tryN body onErr action =>
      have hl := execListWith_df tryBodyWrap (execNode env fuel) ih
      simp only [execNode]
      (repeat' split) <;>
        first
          | exact hl body ctx
          | exact (hl onErr _).trans (hl body ctx)
    | includeN p =>
      simp only [execNode]
      split
      · rfl
      · exact execListWith_df _ (execNode env fuel) ih _ ctx

theorem except_ok_of_bind {α β : Type} {e : Except PyError α} {f : α → Except PyError β}
    {b : β} (h : (e >>= f) = .ok b) : ∃ a, e = .ok a ∧ f a = .ok b := by
  cases e with
  | error x =>
    have : Except.error (ε := PyError) (α := β) x = .ok b := h
    cases this
  | ok a => exact ⟨a, rfl, h⟩

/-- The first-error shape of every executor loop: an error that comes out of
`execListWith` is the wrap of an error some node's `execute` raised. -/
theorem execListWith_err (wrap : Node → PyError → PyError) (step : Node → Ctx → ExecRes) :
    ∀ (ns : List Node) (ctx : Ctx) (e : PyError),
      (execListWith wrap step ns ctx).err = some e →
      ∃ n ∈ ns, ∃ c e0, (step n c).err = some e0 ∧ e = wrap n e0 := by
  intro ns
  induction ns with
  | nil => intro ctx e h; exact Option.noConfusion h
  | cons hd tl ih =>
    intro ctx e h
    unfold execListWith at h
    dsimp only at h
    split at h
    · rename_i e0 heq
      exact ⟨hd, List.mem_cons_self hd tl, ctx, e0, heq, (Option.some.inj h).symm⟩
    · obtain ⟨n, hmem, c, e0, h1, h2⟩ := ih _ e h
      exact ⟨n, List.mem_cons_of_mem hd hmem, c, e0, h1, h2⟩

/-- Sequencing law of the loop: running `xs ++ ys` is running `xs`, then
(unless it raised) `ys` from the context it left. -/
theorem execListWith_append (wrap : Node → PyError → PyError) (step : Node → Ctx → ExecRes) :
    ∀ (xs ys : List Node) (ctx : Ctx),
      execListWith wrap step (xs ++ ys) ctx =
        (let r := execListWith wrap step xs ctx
         match r.err with
         | some _ => r
         | none =>
           let r2 := execListWith wrap step ys r.ctx
           ⟨r2.ctx, r.out ++ r2.out, r2.err⟩) := by
  intro xs
  induction xs with
  | nil => intro ys ctx; rfl
  | cons hd tl ih =>
    intro ys ctx
    cases heq : (step hd ctx).err with
    | some e =>
      simp only [List.cons_append, execListWith, heq]
    | none =>
      simp only [List.cons_append, execListWith, heq, ih ys]
      cases h2 : (execListWith wrap step tl (step hd ctx).ctx).err <;>
        simp [h2, ih ys, List.append_assoc]

/-! ## A concrete test environment

A small host environment with one CSV on disk (the `people.csv` of the
repository's examples), used to evaluate the executor on concrete
pipelines. -/

def peopleTable : Table :=
  ⟨["name", "age", "country", "salary"],
   [[.str "Alice", .num 30, .str "Germany", .num 72000],
    [.str "Bob", .num 17, .str "France", .num 0],
    [.str "Charlie", .num 25, .str "Germany", .num 55000],
    [.str "Diana", .num 42, .str "USA", .num 98000],
    [.str "Eve", .num 16, .str "France", .num 0]]⟩

def sampleEnv : Env :=
  { fs := fun p => if p = "people.csv" then some peopleTable else none,
    ppl := fun _ => none, canon := id, osEnv := fun _ => none,
    glob := fun _ => [],
    sampleN := fun n rows => rows.take n,
    sampleFrac := fun _ rows => rows,
    addExpr := fun _ _ => .error "name is not defined" }

/-- A successful non-chunked run never returns a table: `context.df` starts
`None` and no node assigns it. -/
theorem runPlain_df_none (env : Env) (fuel : Nat) (nodes : List Node) (t : Table) :
    (runPlain env fuel nodes).2 ≠ .ok (some t) := by
  unfold runPlain runNodesWrapped
  dsimp only
  split
  · exact fun hc => Except.noConfusion hc
  · intro hc
    have hdf : (execListWith pipelineWrap (execNode env fuel) nodes Ctx.initial).ctx.df
        = none :=
      execListWith_df pipelineWrap (execNode env fuel)
        (fun n c => execNode_df env fuel n c) nodes Ctx.initial
    have h2 : (execListWith pipelineWrap (execNode env fuel) nodes Ctx.initial).ctx.df
        = some t := Except.ok.inj hc
    rw [hdf] at h2
    exact Option.noConfusion h2

/-- C10: In non-chunked mode `run_pipeline` returns `context.df`, which no
pipeline command ever assigns (they all write `context.lf`), so a successful
non-chunked run always returns `None` — never a table. -/
theorem C10_run_pipeline_returns_none (env : Env) (fuel : Nat) (nodes : List Node)
    (h : chunkStart nodes = false) (t : Table) :
    (run_pipeline env fuel nodes).2 ≠ .ok (some t) := by
  unfold run_pipeline
  split
  · rename_i p k rest
    rw [if_neg]
    · exact runPlain_df_none env fuel _ t
    · simp only [chunkStart] at h
      exact of_decide_eq_false h
  · exact runPlain_df_none env fuel _ t

theorem C10_witness :
    chunkStart [Node.logN "hi"] = false ∧
    (run_pipeline sampleEnv 9 [Node.logN "hi"]).2 ≠ Except.ok (some peopleTable) :=
  ⟨rfl, C10_run_pipeline_returns_none sampleEnv 9 [Node.logN "hi"] rfl peopleTable⟩

/-- C1: A chunked run (`source ... chunk N` followed by a chunk-safe command)
crashes: the per-chunk context carries the declared `df` attribute, but every
node's `execute` reads the dynamically created `lf` attribute, which a fresh
`PipelineContext` does not have, so Python raises
`AttributeError: 'PipelineContext' object has no attribute 'lf'` — while the
same pipeline without `chunk` runs fine.  The executor does not feed the
chunk into any attribute the nodes read, so chunked execution can never
process data. -/
theorem C1_chunked_pipeline_crashes :
    (run_pipeline sampleEnv 9
        [Node.sourceN "people.csv" (some 1), Node.filterN "age" ">" "18"]).2
      = .error (attrError "lf") ∧
    attrError "lf"
      = ⟨.attributeError, "'PipelineContext' object has no attribute 'lf'"⟩ ∧
    run_pipeline sampleEnv 9
        [Node.sourceN "people.csv" none, Node.filterN "age" ">" "18"]
      = ([], .ok none) :=
  ⟨rfl, rfl, rfl⟩

/-- C3: Running a table command against a fresh context does not produce the
documented `RuntimeError: ... no data loaded — use 'source' first`: the
`context.lf is None` guard is never reached, because reading the missing
`lf` attribute raises `AttributeError` first. -/
theorem C3_no_data_is_attribute_error :
    run_pipeline sampleEnv 9 [Node.filterN "age" ">" "18"]
      = ([], .error (attrError "lf")) ∧
    (attrError "lf").cls = ExcClass.attributeError ∧
    ((attrError "lf").cls == ExcClass.runtimeError) = false :=
  ⟨rfl, rfl, rfl⟩

/-- C2: The datetime / timer commands (`timer`, `parse_date`, `extract`,
`date_diff`, `filter_date`, `truncate_date`, `ts_sort`) have node classes in
`ast_nodes.py`, but `ppl_parser.py` has no `_PARSERS` / `_NO_ARG_NODES` entry
for any of them, so every such line is rejected as an unknown command. -/
theorem C2_datetime_commands_unparsed :
    parse_lines ["timer start build"] = .error (unknownCommandErr 1 "timer") ∧
    parse_lines ["parse_date order_date"] = .error (unknownCommandErr 1 "parse_date") ∧
    parse_lines ["extract year from order_date as order_year"]
      = .error (unknownCommandErr 1 "extract") ∧
    parse_lines ["date_diff end_date start_date as days"]
      = .error (unknownCommandErr 1 "date_diff") ∧
    parse_lines ["filter_date order_date after 2024-01-01"]
      = .error (unknownCommandErr 1 "filter_date") ∧
    parse_lines ["truncate_date order_date to month"]
      = .error (unknownCommandErr 1 "truncate_date") ∧
    parse_lines ["ts_sort order_date"] = .error (unknownCommandErr 1 "ts_sort") ∧
    ((parserKeys ++ noArgKeys ++ ["try"]).any (fun k =>
        k ∈ ["timer", "parse_date", "extract", "date_diff",
             "filter_date", "truncate_date", "ts_sort"])) = false :=
  ⟨rfl, rfl, rfl, rfl, rfl, rfl, rfl, by decide⟩

/-- C5: `check_path_sandbox` allows a path iff (after canonicalisation by
`os.path.realpath(os.path.abspath(·))`) it equals the sandbox directory or
extends it with a separator; everything else is rejected with a
`PermissionError`, including a sibling directory that merely shares the
sandbox's name as a string prefix (`/data2` under sandbox `/data`). -/
theorem C5_sandbox_soundness (canon : String → String) (p s : String) (ctx : Ctx)
    (hs : ctx.sandbox_dir = some s) :
    (check_path_sandbox canon p ctx = none ↔
      canon p = canon s ∨ (pyStartswith (canon p) (canon s ++ osSep) = true)) ∧
    (∀ e, check_path_sandbox canon p ctx = some e → e.cls = .permissionError) ∧
    check_path_sandbox id "/data2/secret.csv" {sandbox_dir := some "/data"} =
      some ⟨.permissionError,
        "Access denied: '/data2/secret.csv' is outside the sandbox '/data'. " ++
        "Use 'set sandbox = <dir>' to change the allowed directory."⟩ := by
  refine ⟨?_, ?_, ?_⟩
  · unfold check_path_sandbox
    rw [hs]
    dsimp only
    constructor
    · intro h
      by_cases hc : canon p = canon s ∨ (pyStartswith (canon p) (canon s ++ osSep) = true)
      · exact hc
      · rw [if_neg ?_] at h
        · cases h
        · simpa using hc
    · intro h
      rw [if_pos (by simpa using h)]
  · intro e he
    unfold check_path_sandbox at he
    rw [hs] at he
    dsimp only at he
    split at he
    · cases he
    · cases he; rfl
  · rfl

theorem C5_witness :
    check_path_sandbox id "/data/x.csv" {sandbox_dir := some "/data"} = none :=
  ((C5_sandbox_soundness id "/data/x.csv" "/data" {sandbox_dir := some "/data"} rfl).1).mpr
    (Or.inr (by decide))

/-- C4 (amended): an error escaping the `run_pipeline` loop is the error some
node raised, re-raised as the same class with `[NodeName] ` prefixed — but
only when its class is in the `except (AssertionError, FileNotFoundError,
KeyError, RuntimeError, ValueError)` tuple; a `PermissionError` (and any
other class) propagates untouched.  The `try` body loop wraps nothing. -/
theorem C4_error_wrapping (env : Env) (fuel : Nat) :
    (∀ (ns : List Node) (ctx : Ctx) (e : PyError),
        (runNodesWrapped env fuel ns ctx).err = some e →
        ∃ n ∈ ns, ∃ c e0, (execNode env fuel n c).err = some e0 ∧
          e = (if recognizedClass e0.cls then wrapError n.pyName e0 else e0)) ∧
    (∀ (ns : List Node) (ctx : Ctx) (e : PyError),
        (execNodes env fuel ns ctx).err = some e →
        ∃ n ∈ ns, ∃ c, (execNode env fuel n c).err = some e) ∧
    (recognizedClass .assertionError = true ∧ recognizedClass .fileNotFoundError = true ∧
     recognizedClass .keyError = true ∧ recognizedClass .runtimeError = true ∧
     recognizedClass .valueError = true ∧ recognizedClass .permissionError = false ∧
     recognizedClass .attributeError = false) ∧
    (∀ name e, wrapError name e = ⟨e.cls, "[" ++ name ++ "] " ++ strExc e⟩) := by
  refine ⟨?_, ?_, ⟨rfl, rfl, rfl, rfl, rfl, rfl, rfl⟩, fun name e => rfl⟩
  · intro ns ctx e h
    obtain ⟨n, hmem, c, e0, h1, h2⟩ :=
      execListWith_err pipelineWrap (execNode env fuel) ns ctx e h
    exact ⟨n, hmem, c, e0, h1, h2⟩
  · intro ns ctx e h
    obtain ⟨n, hmem, c, e0, h1, h2⟩ :=
      execListWith_err tryBodyWrap (execNode env fuel) ns ctx e h
    exact ⟨n, hmem, c, h2 ▸ h1⟩

theorem C4_counterexample :
    run_pipeline sampleEnv 9 [Node.setN "sandbox" "/data", Node.sourceN "/etc/x.csv" none]
      = ([], .error ⟨.permissionError,
          "Access denied: '/etc/x.csv' is outside the sandbox '/data'. " ++
          "Use 'set sandbox = <dir>' to change the allowed directory."⟩) ∧
    pyStartswith
      ("Access denied: '/etc/x.csv' is outside the sandbox '/data'. " ++
        "Use 'set sandbox = <dir>' to change the allowed directory.")
      "[SourceNode] " = false :=
  ⟨rfl, by decide⟩

/-- C9 (amended): every error `parse_lines` raises carries a `Line N:` prefix
with `N ≥ 1`; but `N` counts lines relative to the parser invocation that
reports it — a `try` body is re-parsed by a recursive `parse_lines` call on
just the body lines, so its numbering restarts at 1 rather than continuing
the whole file's numbering (see the counterexample). -/
theorem C9_line_prefix (lines : List String) (m : String)
    (h : parse_lines lines = .error m) :
    ∃ n r, 1 ≤ n ∧ m = mkLineErr n r :=
  parseLinesFrom_line lines.length lines 0 m h

theorem C9_witness :
    ∃ n r, 1 ≤ n ∧
      "Line 1: 'limit' requires a positive integer. Example: limit 100"
        = mkLineErr n r :=
  C9_line_prefix ["limit abc"]
    "Line 1: 'limit' requires a positive integer. Example: limit 100" rfl

theorem C9_counterexample :
    parse_lines ["source \"a.csv\"", "try", "badcmd foo", "on_error skip"]
      = .error (unknownCommandErr 1 "badcmd") ∧
    (unknownCommandErr 1 "badcmd").data.take 8 = "Line 1: ".data ∧
    (mkLineErr 3 "x").data.take 8 = "Line 3: ".data ∧
    ("Line 1: ".data == "Line 3: ".data) = false :=
  ⟨rfl, by decide, by decide, by decide⟩

/-- C8 (amended): `_strip_quotes` strips one leading and one trailing quote
character whenever the trimmed string starts *and* ends with a quote
character — the two need not match (`re.match(r'^["\'](.+)["\']$', ...)`
chooses the quote classes independently) — with a non-empty, newline-free
inside; any other string is returned with outer whitespace trimmed only. -/
theorem C8_strip_quotes (s : String) :
    (∀ (q1 q2 : Char) (x : List Char),
        pyStrip s = ⟨q1 :: (x ++ [q2])⟩ →
        quoteChars.contains q1 = true → quoteChars.contains q2 = true →
        x ≠ [] → x.contains '\n' = false →
        strip_quotes s = ⟨x⟩) ∧
    ((∀ (q1 q2 : Char) (x : List Char), pyStrip s = ⟨q1 :: (x ++ [q2])⟩ →
        ¬(quoteChars.contains q1 = true ∧ quoteChars.contains q2 = true ∧
          x ≠ [] ∧ ¬ x.contains '\n' = true)) →
      strip_quotes s = pyStrip s) := by
  constructor
  · intro q1 q2 x hd hq1 hq2 hx hnl
    unfold strip_quotes
    dsimp only
    rw [hd]
    dsimp only
    have hcond : ((q1 :: (x ++ [q2]) : List Char).tail.length ≥ 2) ∧
        (quoteChars.contains q1 = true) ∧
        (quoteChars.contains ((x ++ [q2]).getLastD ' ') = true) ∧
        (¬ (x ++ [q2]).dropLast.contains '\n' = true) ∧ (¬ q1 = '\n') := by
      refine ⟨?_, hq1, ?_, ?_, ?_⟩
      · have : 0 < x.length := List.length_pos.mpr hx
        simp only [List.tail_cons, List.length_append, List.length_singleton]
        omega
      · rw [List.getLastD_concat]; exact hq2
      · rw [List.dropLast_concat, hnl]; exact Bool.false_ne_true
      · intro h
        rw [h] at hq1
        exact absurd hq1 (by decide)
    rw [if_pos ⟨hcond.1, hcond.2.1, hcond.2.2.1, hcond.2.2.2.1, hcond.2.2.2.2⟩]
    rw [List.dropLast_concat]
  · intro hno
    unfold strip_quotes
    cases hd : (pyStrip s).data with
    | nil => dsimp only; rw [hd]
    | cons c1 rest =>
      dsimp only
      rw [hd]
      dsimp only
      split
      · rename_i hcond
        obtain ⟨hlen, hq1, hq2, hnl, hnn⟩ := hcond
        exfalso
        have hrest : rest ≠ [] := by
          intro h; subst h; simp at hlen
        have hdecomp : rest.dropLast ++ [rest.getLastD ' '] = rest := by
          conv_rhs => rw [← List.dropLast_append_getLast hrest]
          congr 1
          simp [List.getLastD_eq_getLast?, List.getLast?_eq_getLast _ hrest]
        apply hno c1 (rest.getLastD ' ') rest.dropLast
        · apply String.ext
          rw [hd]
          show c1 :: rest = c1 :: (rest.dropLast ++ [rest.getLastD ' '])
          rw [hdecomp]
        · refine ⟨hq1, hq2, ?_, ?_⟩
          · intro h
            rw [h] at hdecomp
            simp at hdecomp
            rw [← hdecomp] at hlen
            simp at hlen
          · simpa using hnl
      · rfl

theorem C8_witness :
    strip_quotes "'abc'" = "abc" :=
  (C8_strip_quotes "'abc'").1 '\'' '\'' ['a', 'b', 'c'] rfl rfl rfl
    (by decide) rfl

theorem C8_counterexample :
    strip_quotes "\"x'" = "x" ∧ ("\"x'" == "x") = false :=
  ⟨rfl, by decide⟩

/-! ## Grouping-lifecycle lemmas (claim C6)

Each table-rebinding `execute` ends a successful run with
`context.group_by_cols = None`; the aggregations do too (consuming any
pending grouping). -/

theorem readGroupCols_ok {ctx : Ctx} {g : Option (List String)}
    (h : readGroupCols ctx = .ok g) : ctx.group_by_cols = some g := by
  unfold readGroupCols at h
  split at h
  · exact Except.noConfusion h
  · rename_i v heq
    exact heq.trans (congrArg some (Except.ok.inj h))

theorem execSource_clears (env : Env) (p : String) (k : Option Nat) (ctx : Ctx) :
    (execSource env p k ctx).err = none → (execSource env p k ctx).ctx.group_by_cols = some none := by
  unfold execSource
  try dsimp only
  (repeat' split) <;> intro h <;> first | rfl | exact Option.noConfusion h

theorem execForeach_clears (env : Env) (p : String) (ctx : Ctx) :
    (execForeach env p ctx).err = none → (execForeach env p ctx).ctx.group_by_cols = some none := by
  unfold execForeach
  try dsimp only
  (repeat' split) <;> intro h <;> first | rfl | exact Option.noConfusion h

theorem execFilter_clears (ctx : Ctx) (c o v : String) :
    (execFilter ctx c o v).err = none → (execFilter ctx c o v).ctx.group_by_cols = some none := by
  unfold execFilter
  try dsimp only
  (repeat' split) <;> intro h <;> first | rfl | exact Option.noConfusion h

theorem execCompoundFilter_clears (ctx : Ctx) (cs : List (String × String × String)) (lg : List String) :
    (execCompoundFilter ctx cs lg).err = none → (execCompoundFilter ctx cs lg).ctx.group_by_cols = some none := by
  unfold execCompoundFilter
  try dsimp only
  (repeat' split) <;> intro h <;> first | rfl | exact Option.noConfusion h

theorem execSelect_clears (ctx : Ctx) (cs : List String) :
    (execSelect ctx cs).err = none → (execSelect ctx cs).ctx.group_by_cols = some none := by
  unfold execSelect
  try dsimp only
  (repeat' split) <;> intro h <;> first | rfl | exact Option.noConfusion h

theorem execDrop_clears (ctx : Ctx) (cs : List String) :
    (execDrop ctx cs).err = none → (execDrop ctx cs).ctx.group_by_cols = some none := by
  unfold execDrop
  try dsimp only
  (repeat' split) <;> intro h <;> first | rfl | exact Option.noConfusion h

theorem execLimit_clears (ctx : Ctx) (k : Nat) :
    (execLimit ctx k).err = none → (execLimit ctx k).ctx.group_by_cols = some none := by
  unfold execLimit
  try dsimp only
  (repeat' split) <;> intro h <;> first | rfl | exact Option.noConfusion h

theorem execDistinct_clears (ctx : Ctx) :
    (execDistinct ctx).err = none → (execDistinct ctx).ctx.group_by_cols = some none := by
  unfold execDistinct
  try dsimp only
  (repeat' split) <;> intro h <;> first | rfl | exact Option.noConfusion h

theorem execSample_clears (env : Env) (ctx : Ctx) (k : Option Nat) (p : Option ℚ) :
    (execSample env ctx k p).err = none → (execSample env ctx k p).ctx.group_by_cols = some none := by
  unfold execSample
  try dsimp only
  (repeat' split) <;> intro h <;> first | rfl | exact Option.noConfusion h

theorem execSort_clears (ctx : Ctx) (cs : List String) (asc : List Bool) :
    (execSort ctx cs asc).err = none → (execSort ctx cs asc).ctx.group_by_cols = some none := by
  unfold execSort
  try dsimp only
  (repeat' split) <;> intro h <;> first | rfl | exact Option.noConfusion h

theorem execRename_clears (ctx : Ctx) (a b : String) :
    (execRename ctx a b).err = none → (execRename ctx a b).ctx.group_by_cols = some none := by
  unfold execRename
  try dsimp only
  (repeat' split) <;> intro h <;> first | rfl | exact Option.noConfusion h

theorem execAdd_clears (env : Env) (ctx : Ctx) (c e : String) :
    (execAdd env ctx c e).err = none → (execAdd env ctx c e).ctx.group_by_cols = some none := by
  unfold execAdd
  try dsimp only
  (repeat' split) <;> intro h <;> first | rfl | exact Option.noConfusion h

theorem execAddIf_clears (ctx : Ctx) (c cc co cv tv fv : String) :
    (execAddIf ctx c cc co cv tv fv).err = none → (execAddIf ctx c cc co cv tv fv).ctx.group_by_cols = some none := by
  unfold execAddIf
  try dsimp only
  (repeat' split) <;> intro h <;> first | rfl | exact Option.noConfusion h

theorem execStrTransform_clears (verb : String) (f : String → String) (ctx : Ctx) (c : String) :
    (execStrTransform verb f ctx c).err = none → (execStrTransform verb f ctx c).ctx.group_by_cols = some none := by
  unfold execStrTransform
  try dsimp only
  (repeat' split) <;> intro h <;> first | rfl | exact Option.noConfusion h

theorem execCast_clears (ctx : Ctx) (c ty : String) :
    (execCast ctx c ty).err = none → (execCast ctx c ty).ctx.group_by_cols = some none := by
  unfold execCast
  try dsimp only
  (repeat' split) <;> intro h <;> first | rfl | exact Option.noConfusion h

theorem execReplace_clears (ctx : Ctx) (c o nn : String) :
    (execReplace ctx c o nn).err = none → (execReplace ctx c o nn).ctx.group_by_cols = some none := by
  unfold execReplace
  try dsimp only
  (repeat' split) <;> intro h <;> first | rfl | exact Option.noConfusion h

theorem execPivot_clears (ctx : Ctx) (i c v : String) :
    (execPivot ctx i c v).err = none → (execPivot ctx i c v).ctx.group_by_cols = some none := by
  unfold execPivot
  try dsimp only
  (repeat' split) <;> intro h <;> first | rfl | exact Option.noConfusion h

theorem execJoin_clears (env : Env) (ctx : Ctx) (p k how : String) :
    (execJoin env ctx p k how).err = none → (execJoin env ctx p k how).ctx.group_by_cols = some none := by
  unfold execJoin
  try dsimp only
  (repeat' split) <;> intro h <;> first | rfl | exact Option.noConfusion h

theorem execMerge_clears (env : Env) (ctx : Ctx) (p : String) :
    (execMerge env ctx p).err = none → (execMerge env ctx p).ctx.group_by_cols = some none := by
  unfold execMerge
  try dsimp only
  (repeat' split) <;> intro h <;> first | rfl | exact Option.noConfusion h

theorem execFill_clears (ctx : Ctx) (c s : String) :
    (execFill ctx c s).err = none → (execFill ctx c s).ctx.group_by_cols = some none := by
  unfold execFill
  try dsimp only
  (repeat' split) <;> intro h <;> first | rfl | exact Option.noConfusion h

theorem execMultiAgg_clears (ctx : Ctx) (specs : List (String × Option String)) :
    (execMultiAgg ctx specs).err = none → (execMultiAgg ctx specs).ctx.group_by_cols = some none := by
  unfold execMultiAgg
  try dsimp only
  (repeat' split) <;> intro h <;> first | rfl | exact Option.noConfusion h

theorem execCount_clears (ctx : Ctx) :
    (execCount ctx).err = none → (execCount ctx).ctx.group_by_cols = some none := by
  unfold execCount
  split
  · intro h; exact Option.noConfusion h
  · dsimp only
    split
    · intro h; exact Option.noConfusion h
    · intro h; exact Option.noConfusion h
    · intro _; rfl
  · rename_i heq
    split
    · intro h; exact Option.noConfusion h
    · intro h; exact Option.noConfusion h
    · intro _
      exact readGroupCols_ok heq

theorem execAggSingle_clears (verb fn : String) (ctx : Ctx) (c : String) :
    (execAggSingle verb fn ctx c).err = none →
    (execAggSingle verb fn ctx c).ctx.group_by_cols = some none := by
  unfold execAggSingle
  split
  · intro h; exact Option.noConfusion h
  · intro _; rfl
  · rename_i t heq
    intro _
    obtain ⟨t0, h1, h2⟩ := except_ok_of_bind heq
    split at h2
    · exact Except.noConfusion h2
    · obtain ⟨gc, h3, h4⟩ := except_ok_of_bind h2
      have hpair : (t0, gc) = (t, none) := Except.ok.inj h4
      have hgc : gc = none := congrArg Prod.snd hpair
      exact readGroupCols_ok (hgc ▸ h3)

theorem execGroupBy_sets (ctx : Ctx) (cols : List String) :
    (execGroupBy ctx cols).err = none →
    (execGroupBy ctx cols).ctx.lf = ctx.lf ∧
    (execGroupBy ctx cols).ctx.group_by_cols = some (some cols) := by
  unfold execGroupBy
  dsimp only
  split
  · intro h; exact Option.noConfusion h
  · intro _; exact ⟨rfl, rfl⟩

/-- C6 (amended): `group by` does not touch the table and records the pending
grouping; and after every successful aggregation or table-rebinding command,
`context.group_by_cols` is `None` again.  (The original claim's stronger
invariant — that the pending grouping is `None` immediately *before* every
non-aggregation table-mutating command — fails: `group by` followed by such a
command executes it with the grouping still pending; see the
counterexample.) -/
theorem C6_grouping_lifecycle (env : Env) (fuel : Nat) (n : Node) (ctx : Ctx) :
    (∀ cols, (execGroupBy ctx cols).err = none →
        (execGroupBy ctx cols).ctx.lf = ctx.lf ∧
        (execGroupBy ctx cols).ctx.group_by_cols = some (some cols)) ∧
    (clearsGrouping n = true → (execNode env fuel n ctx).err = none →
        (execNode env fuel n ctx).ctx.group_by_cols = some none) := by
  refine ⟨fun cols => execGroupBy_sets ctx cols, ?_⟩
  intro hc
  cases fuel with
  | zero => intro h; exact Option.noConfusion h
  | succ fuel =>
    cases n with
    | sourceN p k => exact execSource_clears env p k ctx
    | foreachN p => exact execForeach_clears env p ctx
    | filterN c o v => exact execFilter_clears ctx c o v
    | compoundFilterN cs lg => exact execCompoundFilter_clears ctx cs lg
    | selectN cs => exact execSelect_clears ctx cs
    | dropN cs => exact execDrop_clears ctx cs
    | limitN k => exact execLimit_clears ctx k
    | distinctN => exact execDistinct_clears ctx
    | sampleN k p => exact execSample_clears env ctx k p
    | sortN cs asc => exact execSort_clears ctx cs asc
    | renameN a b => exact execRename_clears ctx a b
    | addN c e => exact execAdd_clears env ctx c e
    | addIfN c cc co cv tv fv => exact execAddIf_clears ctx c cc co cv tv fv
    | trimN c => exact execStrTransform_clears "trim" pyStrip ctx c
    | uppercaseN c => exact execStrTransform_clears "uppercase" strUpper ctx c
    | lowercaseN c => exact execStrTransform_clears "lowercase" strLower ctx c
    | castN c ty => exact execCast_clears ctx c ty
    | replaceN c o nn => exact execReplace_clears ctx c o nn
    | pivotN i c v => exact execPivot_clears ctx i c v
    | groupByN cs => exact Bool.noConfusion hc
    | countN => exact execCount_clears ctx
    | countIfN c o v => exact Bool.noConfusion hc
    | sumN c => exact execAggSingle_clears "sum" "sum" ctx c
    | avgN c => exact execAggSingle_clears "avg" "mean" ctx c
    | minN c => exact execAggSingle_clears "min" "min" ctx c
    | maxN c => exact execAggSingle_clears "max" "max" ctx c
    | multiAggN specs => exact execMultiAgg_clears ctx specs
    | joinN p k how => exact execJoin_clears env ctx p k how
    | mergeN p => exact execMerge_clears env ctx p
    | saveN p => exact Bool.noConfusion hc
    | printN => exact Bool.noConfusion hc
    | schemaN => exact Bool.noConfusion hc
    | inspectN => exact Bool.noConfusion hc
    | headN k => exact Bool.noConfusion hc
    | logN m => exact Bool.noConfusion hc
    | assertN c o v => exact Bool.noConfusion hc
    | fillN c s => exact execFill_clears ctx c s
    | setN nm v => exact Bool.noConfusion hc
    | envN v => exact Bool.noConfusion hc
    | tryN body onErr action => exact Bool.noConfusion hc
    | includeN p => exact Bool.noConfusion hc

theorem C6_witness :
    (execNode sampleEnv 9 Node.countN
        { lf := some (some peopleTable),
          group_by_cols := some (some ["country"]) }).ctx.group_by_cols = some none ∧
    (execGroupBy { lf := some (some peopleTable), group_by_cols := some none }
        ["country"]).ctx.group_by_cols = some (some ["country"]) :=
  ⟨(C6_grouping_lifecycle sampleEnv 9 Node.countN
      { lf := some (some peopleTable),
        group_by_cols := some (some ["country"]) }).2 rfl (by decide),
   ((C6_grouping_lifecycle sampleEnv 9 Node.countN
      { lf := some (some peopleTable), group_by_cols := some none }).1
      ["country"] (by decide)).2⟩

theorem C6_counterexample :
    (runNodesWrapped sampleEnv 9
        [Node.sourceN "people.csv" none, Node.groupByN ["country"]] Ctx.initial).err
      = none ∧
    (runNodesWrapped sampleEnv 9
        [Node.sourceN "people.csv" none, Node.groupByN ["country"]]
        Ctx.initial).ctx.group_by_cols = some (some ["country"]) ∧
    clearsGrouping (Node.filterN "age" ">" "18") = true ∧
    (execNode sampleEnv 9 (Node.filterN "age" ">" "18")
        (runNodesWrapped sampleEnv 9
          [Node.sourceN "people.csv" none, Node.groupByN ["country"]]
          Ctx.initial).ctx).err = none :=
  ⟨rfl, rfl, rfl, by decide⟩

/-- C7: `try` runs its body in order and the first exception aborts the rest;
then a `skip` handler swallows the error, a `log msg` handler prints
`[TRY] msg: err` and swallows it, and any other handler text runs the
`on_error` commands against the context the body left behind, their errors
(and output) propagating as the `try`'s own result. -/
theorem C7_try_semantics (env : Env) (fuel : Nat) (body onErr : List Node)
    (action : String) (ctx : Ctx) :
    (∀ xs ys, body = xs ++ ys → (execNodes env fuel xs ctx).err ≠ none →
        execNodes env fuel body ctx = execNodes env fuel xs ctx) ∧
    ((execNodes env fuel body ctx).err = none →
        execNode env (fuel + 1) (.tryN body onErr action) ctx
          = execNodes env fuel body ctx) ∧
    (∀ e, (execNodes env fuel body ctx).err = some e →
      (pyLower (pyStrip action) = "skip" →
        execNode env (fuel + 1) (.tryN body onErr action) ctx
          = ⟨(execNodes env fuel body ctx).ctx, (execNodes env fuel body ctx).out,
             none⟩) ∧
      (pyLower (pyStrip action) ≠ "skip" →
       pyStartswith (pyLower (pyStrip action)) "log " = true →
       ∀ m, substitute_vars (pyStripChars quoteChars (pyStrip (pyDropFirst 4 action)))
              (execNodes env fuel body ctx).ctx = .ok m →
        execNode env (fuel + 1) (.tryN body onErr action) ctx
          = ⟨(execNodes env fuel body ctx).ctx,
             (execNodes env fuel body ctx).out ++ ["[TRY] " ++ m ++ ": " ++ strExc e],
             none⟩) ∧
      (pyLower (pyStrip action) ≠ "skip" →
       pyStartswith (pyLower (pyStrip action)) "log " = false →
        execNode env (fuel + 1) (.tryN body onErr action) ctx
          = ⟨(execNodes env fuel onErr (execNodes env fuel body ctx).ctx).ctx,
             (execNodes env fuel body ctx).out
               ++ (execNodes env fuel onErr (execNodes env fuel body ctx).ctx).out,
             (execNodes env fuel onErr (execNodes env fuel body ctx).ctx).err⟩)) := by
  refine ⟨?_, ?_, ?_⟩
  · intro xs ys hsplit herr
    unfold execNodes at herr ⊢
    rw [hsplit, execListWith_append]
    dsimp only
    cases h2 : (execListWith tryBodyWrap (execNode env fuel) xs ctx).err with
    | none => exact absurd h2 herr
    | some e => rfl
  · intro hnone
    unfold execNodes at hnone ⊢
    simp only [execNode]
    rw [hnone]
  · intro e he
    unfold execNodes at he ⊢
    refine ⟨?_, ?_, ?_⟩
    · intro hskip
      simp only [execNode]
      rw [he]
      dsimp only
      rw [if_pos hskip]
    · intro hns hlog m hm
      simp only [execNode]
      rw [he]
      dsimp only
      rw [if_neg hns, if_pos hlog, hm]
    · intro hns hlog
      simp only [execNode]
      rw [he]
      dsimp only
      rw [if_neg hns, if_neg (by simp [hlog])]

theorem C7_witness :
    execNode sampleEnv 9
        (Node.tryN [Node.assertN "salary" ">" "1000000"] [] "skip")
        { lf := some (some peopleTable), group_by_cols := some none }
      = ⟨(execNodes sampleEnv 8 [Node.assertN "salary" ">" "1000000"]
            { lf := some (some peopleTable), group_by_cols := some none }).ctx,
         (execNodes sampleEnv 8 [Node.assertN "salary" ">" "1000000"]
            { lf := some (some peopleTable), group_by_cols := some none }).out,
         none⟩ :=
  ((C7_try_semantics sampleEnv 8 [Node.assertN "salary" ">" "1000000"] [] "skip"
      { lf := some (some peopleTable), group_by_cols := some none }).2.2
    ⟨.assertionError, "assert: 5 row(s) failed condition 'salary > 1000000'"⟩
    (by decide)).1 rfl
